import Mathlib

/-!
Verification of the housing-support pool-fund / financial aggregation engine.

This file is a shallow embedding of the server-side business logic of the
housing-support case-management application:

* the data model of `src/shared/schema.ts` (clients, client-months, housing
  supports, rent payments, LTH payments, expenses, client documents),
* the storage layer of `src/server/storage.ts` (drizzle queries over those
  tables, modelled as list lookups: `db.select().where(eq ...)` destructured
  to its first row becomes `List.find?`, multi-row selects become
  `List.filter`, inserts append a row with a fresh id, updates map over the
  row list, deletes filter the row list),
* the route handlers of `src/server/routes.ts` that implement the dashboard
  metrics, reports, pool-fund summary, yearly financial grid, bulk updates,
  the service-agreement mutation gate and the financial delete endpoints.

Monetary amounts are `numeric(12,2)` columns read through JavaScript
`parseFloat`; every claim under study is about the *structure* of the rules
(which rows are summed, gated, or skipped), not about binary floating-point
rounding, so amounts are modelled as exact integers (cents).  Opaque
`varchar(36)` uuid keys are modelled as `Nat`; `gen_random_uuid()` becomes a
fresh-id counter on the store.  Timestamps enter the logic only through
comparisons (`expiry >= new Date()`), so they are modelled as integers.
-/

namespace HousingSupport

/-- Role of an authenticated actor (`schema.ts` `userRoleEnum`:
`"admin" | "super_admin"`). -/
inductive Role where
  | admin
  | superAdmin
  deriving Repr, DecidableEq

/-- Document type tags (`schema.ts` `documentTypeEnum`). -/
inductive DocType where
  | hsAward
  | lease
  | policy
  | other
  | serviceAgreement
  deriving Repr, DecidableEq

/-- A row of the `clients` table (`schema.ts` 120-133); only the fields the
verified routes read are kept.  `statusOverride` is the manual override text
column (the gate compares it with the string `"active"`). -/
structure ClientRec where
  id : Nat
  fullName : String
  countyId : Option Nat
  statusOverride : Option String
  deriving Repr, DecidableEq

/-- A row of the `client_months` table (`schema.ts` 211-217).  Note the
table declares only the `id` primary key: there is no unique constraint on
`(clientId, year, month)`. -/
structure ClientMonthRec where
  id : Nat
  clientId : Nat
  year : Int
  month : Int
  isLocked : Bool
  deriving Repr, DecidableEq

/-- A row of `housing_supports` (`schema.ts` 227-234). -/
structure HousingSupportRow where
  id : Nat
  clientMonthId : Nat
  amount : Int
  deriving Repr, DecidableEq

/-- A row of `rent_payments` (`schema.ts` 245-252); `paidAmount` is a
nullable column (`parseFloat(rent.paidAmount || "0")` in the routes). -/
structure RentPaymentRow where
  id : Nat
  clientMonthId : Nat
  paidAmount : Option Int
  deriving Repr, DecidableEq

/-- A row of `lth_payments` (`schema.ts` 262-267). -/
structure LthPaymentRow where
  id : Nat
  clientMonthId : Nat
  amount : Int
  deriving Repr, DecidableEq

/-- A row of `expenses` (`schema.ts` 277-284). -/
structure ExpenseRow where
  id : Nat
  clientMonthId : Nat
  amount : Int
  deriving Repr, DecidableEq

/-- A row of `client_documents` (`schema.ts` 187-196); `expiryDate` is the
nullable timestamp the service-agreement gate compares with "now". -/
structure ClientDocumentRec where
  id : Nat
  clientId : Nat
  documentType : DocType
  expiryDate : Option Int
  deriving Repr, DecidableEq

/-- The relational store the routes read and write (`storage.ts`
`DatabaseStorage`).  `nextId` models the fresh-uuid source for inserted
rows. -/
structure Store where
  clients : List ClientRec
  clientMonths : List ClientMonthRec
  housingSupports : List HousingSupportRow
  rentPayments : List RentPaymentRow
  lthPayments : List LthPaymentRow
  expenses : List ExpenseRow
  clientDocuments : List ClientDocumentRec
  nextId : Nat
  deriving Repr, DecidableEq

/-- `storage.getClients` (`storage.ts` 293-295). -/
def getClients (s : Store) : List ClientRec := s.clients

/-- `storage.getClient` (`storage.ts` 288-291): first row with that id. -/
def getClient (s : Store) (id : Nat) : Option ClientRec :=
  s.clients.find? (fun c => c.id == id)

/-- `storage.getClientMonth` (`storage.ts` 348-351). -/
def getClientMonth (s : Store) (id : Nat) : Option ClientMonthRec :=
  s.clientMonths.find? (fun cm => cm.id == id)

/-- `storage.getClientMonths` (`storage.ts` 353-355). -/
def getClientMonths (s : Store) (clientId : Nat) : List ClientMonthRec :=
  s.clientMonths.filter (fun cm => cm.clientId == clientId)

/-- `storage.getClientMonthByPeriod` (`storage.ts` 357-366): first row
matching the `(clientId, year, month)` key. -/
def getClientMonthByPeriod (s : Store) (clientId : Nat) (year month : Int) :
    Option ClientMonthRec :=
  s.clientMonths.find?
    (fun cm => cm.clientId == clientId && cm.year == year && cm.month == month)

/-- `storage.createClientMonth` (`storage.ts` 368-371): an unconditional
insert — the schema has no uniqueness constraint on the period key, so
nothing stops a second row with the same `(clientId, year, month)`. -/
def createClientMonth (s : Store) (clientId : Nat) (year month : Int)
    (isLocked : Bool) : ClientMonthRec × Store :=
  let row : ClientMonthRec :=
    { id := s.nextId, clientId := clientId, year := year, month := month,
      isLocked := isLocked }
  (row, { s with clientMonths := s.clientMonths ++ [row], nextId := s.nextId + 1 })

/-- `storage.getHousingSupport` (`storage.ts` 379-382): at most one row per
client-month is assumed by callers; drizzle returns the first. -/
def getHousingSupport (s : Store) (clientMonthId : Nat) : Option HousingSupportRow :=
  s.housingSupports.find? (fun r => r.clientMonthId == clientMonthId)

/-- `storage.createHousingSupport` (`storage.ts` 384-387). -/
def createHousingSupport (s : Store) (clientMonthId : Nat) (amount : Int) :
    HousingSupportRow × Store :=
  let row : HousingSupportRow :=
    { id := s.nextId, clientMonthId := clientMonthId, amount := amount }
  (row, { s with housingSupports := s.housingSupports ++ [row], nextId := s.nextId + 1 })

/-- `storage.updateHousingSupport` (`storage.ts` 389-392): update by row id
(the bulk route only ever sets the amount). -/
def updateHousingSupport (s : Store) (id : Nat) (amount : Int) : Store :=
  { s with housingSupports :=
      s.housingSupports.map (fun r => if r.id == id then { r with amount := amount } else r) }

/-- `storage.getRentPayment` (`storage.ts` 395-398). -/
def getRentPayment (s : Store) (clientMonthId : Nat) : Option RentPaymentRow :=
  s.rentPayments.find? (fun r => r.clientMonthId == clientMonthId)

/-- `storage.createRentPayment` (`storage.ts` 400-403). -/
def createRentPayment (s : Store) (clientMonthId : Nat) (paidAmount : Option Int) :
    RentPaymentRow × Store :=
  let row : RentPaymentRow :=
    { id := s.nextId, clientMonthId := clientMonthId, paidAmount := paidAmount }
  (row, { s with rentPayments := s.rentPayments ++ [row], nextId := s.nextId + 1 })

/-- `storage.updateRentPayment` (`storage.ts` 405-408): the bulk route only
ever sets `paidAmount`. -/
def updateRentPayment (s : Store) (id : Nat) (paidAmount : Option Int) : Store :=
  { s with rentPayments :=
      s.rentPayments.map (fun r => if r.id == id then { r with paidAmount := paidAmount } else r) }

/-- `storage.getLthPayments` (`storage.ts` 411-413). -/
def getLthPayments (s : Store) (clientMonthId : Nat) : List LthPaymentRow :=
  s.lthPayments.filter (fun r => r.clientMonthId == clientMonthId)

/-- `storage.createLthPayment` (`storage.ts` 415-418). -/
def createLthPayment (s : Store) (clientMonthId : Nat) (amount : Int) :
    LthPaymentRow × Store :=
  let row : LthPaymentRow :=
    { id := s.nextId, clientMonthId := clientMonthId, amount := amount }
  (row, { s with lthPayments := s.lthPayments ++ [row], nextId := s.nextId + 1 })

/-- `storage.deleteLthPayment` (`storage.ts` 425-427). -/
def deleteLthPayment (s : Store) (id : Nat) : Store :=
  { s with lthPayments := s.lthPayments.filter (fun r => !(r.id == id)) }

/-- `storage.getExpenses` (`storage.ts` 430-432). -/
def getExpenses (s : Store) (clientMonthId : Nat) : List ExpenseRow :=
  s.expenses.filter (fun r => r.clientMonthId == clientMonthId)

/-- `storage.createExpense` (`storage.ts` 434-437). -/
def createExpense (s : Store) (clientMonthId : Nat) (amount : Int) :
    ExpenseRow × Store :=
  let row : ExpenseRow :=
    { id := s.nextId, clientMonthId := clientMonthId, amount := amount }
  (row, { s with expenses := s.expenses ++ [row], nextId := s.nextId + 1 })

/-- `storage.deleteExpense` (`storage.ts` 444-446). -/
def deleteExpense (s : Store) (id : Nat) : Store :=
  { s with expenses := s.expenses.filter (fun r => !(r.id == id)) }

/-- `storage.getClientDocuments` (`storage.ts` 334-336). -/
def getClientDocuments (s : Store) (clientId : Nat) : List ClientDocumentRec :=
  s.clientDocuments.filter (fun d => d.clientId == clientId)

/-! ## Per-month amounts as the read-side routes extract them

`routes.ts` 184-196 (and the identical lookups in the reports, pool-fund
summary and yearly grid): a missing row contributes zero, expenses are
summed with `reduce`. -/

/-- `hs ? parseFloat(hs.amount || "0") : 0` for a client-month. -/
def hsAmountOf (s : Store) (clientMonthId : Nat) : Int :=
  match getHousingSupport s clientMonthId with
  | some h => h.amount
  | none => 0

/-- `rent ? parseFloat(rent.paidAmount || "0") : 0` for a client-month. -/
def rentAmountOf (s : Store) (clientMonthId : Nat) : Int :=
  match getRentPayment s clientMonthId with
  | some r => r.paidAmount.getD 0
  | none => 0

/-- `expenses.reduce((sum, e) => sum + parseFloat(e.amount || "0"), 0)`
for a client-month (an empty list reduces to zero, matching the
`length > 0 ? ... : 0` guard in the dashboard). -/
def expensesAmountOf (s : Store) (clientMonthId : Nat) : Int :=
  ((getExpenses s clientMonthId).map (fun e => e.amount)).foldl (fun a b => a + b) 0

/-! ## Dashboard metrics (`GET /api/dashboard/metrics`, routes.ts 155-230) -/

/-- The dashboard's scope filter (`filter` query parameter:
`"all" | "year" | "month"` with the `year`/`month` parameters). -/
inductive DashFilter where
  | all
  | byYear (year : Int)
  | byMonth (year month : Int)

/-- The `relevantMonths` filter of the dashboard loop (routes.ts 173-181). -/
def relevantMonths (s : Store) (f : DashFilter) (clientId : Nat) :
    List ClientMonthRec :=
  (getClientMonths s clientId).filter (fun cm =>
    match f with
    | .all => true
    | .byYear y => cm.year == y
    | .byMonth y m => cm.year == y && cm.month == m)

/-- The dashboard's running totals (routes.ts 162-167), including the
`poolContributorSet` of distinct client ids. -/
structure Metrics where
  totalHousingSupport : Int
  totalRentPaid : Int
  totalExpenses : Int
  totalPoolFund : Int
  totalRemainingBalance : Int
  poolContributorSet : Finset Nat

/-- One iteration of the dashboard's inner month loop (routes.ts 183-214):
always add to the three totals and the remaining balance; add to the pool
fund (and the contributor set) only under the inclusion predicate. -/
def dashboardMonthStep (s : Store) (clientId : Nat) (acc : Metrics)
    (cm : ClientMonthRec) : Metrics :=
  let hsAmount := hsAmountOf s cm.id
  let rentAmount := rentAmountOf s cm.id
  let expensesAmount := expensesAmountOf s cm.id
  let acc :=
    { acc with
      totalHousingSupport := acc.totalHousingSupport + hsAmount
      totalRentPaid := acc.totalRentPaid + rentAmount
      totalExpenses := acc.totalExpenses + expensesAmount
      totalRemainingBalance :=
        acc.totalRemainingBalance + (hsAmount - rentAmount - expensesAmount) }
  if hsAmount > 0 ∧ (rentAmount > 0 ∨ expensesAmount > 0) then
    { acc with
      totalPoolFund := acc.totalPoolFund + (hsAmount - (rentAmount + expensesAmount))
      poolContributorSet := insert clientId acc.poolContributorSet }
  else
    acc

/-- One iteration of the dashboard's outer client loop (routes.ts 169-215). -/
def dashboardClientStep (s : Store) (f : DashFilter) (acc : Metrics)
    (c : ClientRec) : Metrics :=
  (relevantMonths s f c.id).foldl (dashboardMonthStep s c.id) acc

/-- All totals start at zero, the contributor set empty (routes.ts 162-167). -/
def emptyMetrics : Metrics := ⟨0, 0, 0, 0, 0, ∅⟩

/-- `GET /api/dashboard/metrics` (routes.ts 155-230), as the fold the two
nested loops compute. -/
def dashboardMetrics (s : Store) (f : DashFilter) : Metrics :=
  (getClients s).foldl (dashboardClientStep s f) emptyMetrics

/-- The client-months the dashboard visits, in visiting order: every
relevant month of every client. -/
def dashboardMonths (s : Store) (f : DashFilter) : List ClientMonthRec :=
  (getClients s).flatMap (fun c => relevantMonths s f c.id)

lemma dashboard_months_totalPoolFund (s : Store) (clientId : Nat)
    (ms : List ClientMonthRec) (acc : Metrics) :
    ((ms.foldl (dashboardMonthStep s clientId) acc).totalPoolFund) =
      acc.totalPoolFund +
        ((ms.filter (fun cm =>
            decide (hsAmountOf s cm.id > 0 ∧
              (rentAmountOf s cm.id > 0 ∨ expensesAmountOf s cm.id > 0)))).map
          (fun cm =>
            hsAmountOf s cm.id - (rentAmountOf s cm.id + expensesAmountOf s cm.id))).sum := by
  induction ms generalizing acc with
  | nil => simp
  | cons cm rest ih =>
    by_cases h : hsAmountOf s cm.id > 0 ∧
        (rentAmountOf s cm.id > 0 ∨ expensesAmountOf s cm.id > 0)
    · simp [List.foldl_cons, ih, List.filter_cons, decide_eq_true h,
        dashboardMonthStep, if_pos h]
      ring
    · simp [List.foldl_cons, ih, List.filter_cons, decide_eq_false h,
        dashboardMonthStep, if_neg h]

lemma dashboard_months_totalRemainingBalance (s : Store) (clientId : Nat)
    (ms : List ClientMonthRec) (acc : Metrics) :
    ((ms.foldl (dashboardMonthStep s clientId) acc).totalRemainingBalance) =
      acc.totalRemainingBalance +
        (ms.map (fun cm =>
          hsAmountOf s cm.id - rentAmountOf s cm.id - expensesAmountOf s cm.id)).sum := by
  induction ms generalizing acc with
  | nil => simp
  | cons cm rest ih =>
    by_cases h : hsAmountOf s cm.id > 0 ∧
        (rentAmountOf s cm.id > 0 ∨ expensesAmountOf s cm.id > 0)
    · simp [List.foldl_cons, ih, dashboardMonthStep, if_pos h]
      ring
    · simp [List.foldl_cons, ih, dashboardMonthStep, if_neg h]
      ring

lemma dashboard_clients_totalPoolFund (s : Store) (f : DashFilter)
    (cs : List ClientRec) (acc : Metrics) :
    ((cs.foldl (dashboardClientStep s f) acc).totalPoolFund) =
      acc.totalPoolFund +
        (((cs.flatMap (fun c => relevantMonths s f c.id)).filter (fun cm =>
            decide (hsAmountOf s cm.id > 0 ∧
              (rentAmountOf s cm.id > 0 ∨ expensesAmountOf s cm.id > 0)))).map
          (fun cm =>
            hsAmountOf s cm.id - (rentAmountOf s cm.id + expensesAmountOf s cm.id))).sum := by
  induction cs generalizing acc with
  | nil => simp
  | cons c rest ih =>
    rw [List.foldl_cons, ih, dashboardClientStep, dashboard_months_totalPoolFund]
    simp [add_assoc]

lemma dashboard_clients_totalRemainingBalance (s : Store) (f : DashFilter)
    (cs : List ClientRec) (acc : Metrics) :
    ((cs.foldl (dashboardClientStep s f) acc).totalRemainingBalance) =
      acc.totalRemainingBalance +
        ((cs.flatMap (fun c => relevantMonths s f c.id)).map (fun cm =>
          hsAmountOf s cm.id - rentAmountOf s cm.id - expensesAmountOf s cm.id)).sum := by
  induction cs generalizing acc with
  | nil => simp
  | cons c rest ih =>
    rw [List.foldl_cons, ih, dashboardClientStep, dashboard_months_totalRemainingBalance]
    simp [add_assoc]

/-! ## Client yearly financial grid
(`GET /api/clients/:clientId/yearly-financials`, routes.ts 571-656) -/

/-- One row of the 12-month grid (routes.ts 633-644). -/
structure GridEntry where
  month : Int
  year : Int
  clientMonthId : Option Nat
  isLocked : Bool
  housingSupport : Int
  rentPaid : Int
  totalExpenses : Int
  remainingBalance : Int
  poolFund : Int
  hasData : Bool
  deriving Repr, DecidableEq

/-- The grid's row for one month number (routes.ts 591-644): look up the
client-month with `find`, default every amount to zero when absent, then
compute the unconditional remaining balance and the gated pool fund. -/
def gridEntry (s : Store) (yearMonths : List ClientMonthRec) (year month : Int) :
    GridEntry :=
  let found := yearMonths.find? (fun cm => cm.month == month)
  let housingSupport := match found with
    | some cm => hsAmountOf s cm.id
    | none => 0
  let rentPaid := match found with
    | some cm => rentAmountOf s cm.id
    | none => 0
  let totalExpenses := match found with
    | some cm => expensesAmountOf s cm.id
    | none => 0
  let remainingBalance := housingSupport - rentPaid - totalExpenses
  let poolFund :=
    if housingSupport > 0 ∧ (rentPaid > 0 ∨ totalExpenses > 0) then
      housingSupport - (rentPaid + totalExpenses)
    else 0
  { month := month
    year := year
    clientMonthId := found.map (fun cm => cm.id)
    isLocked := match found with
      | some cm => cm.isLocked
      | none => false
    housingSupport := housingSupport
    rentPaid := rentPaid
    totalExpenses := totalExpenses
    remainingBalance := remainingBalance
    poolFund := poolFund
    hasData := decide (housingSupport > 0 ∨ rentPaid > 0 ∨ totalExpenses > 0) }

/-- The month numbers the grid loop ranges over (`for month = 1..12`). -/
def monthNumbers : List Int := [1, 2, 3, 4, 5, 6, 7, 8, 9, 10, 11, 12]

/-- The client-months of one client in one year, as both the grid and the
report select them (`clientMonths.filter(cm => cm.year === year)`). -/
def yearMonthsOf (s : Store) (clientId : Nat) (year : Int) : List ClientMonthRec :=
  (getClientMonths s clientId).filter (fun cm => cm.year == year)

/-- `GET /api/clients/:clientId/yearly-financials` (routes.ts 571-656):
the 12 grid rows. -/
def yearlyFinancials (s : Store) (clientId : Nat) (year : Int) : List GridEntry :=
  monthNumbers.map (fun m => gridEntry s (yearMonthsOf s clientId year) year m)

/-- C1: the pool-fund rule engine includes a client-month in the pool-fund
total if and only if its housing-support amount is positive and its rent or
expense amount is positive; an included month contributes exactly
`housingSupport - (rentPaid + totalExpenses)` (negative results included,
not clamped); an excluded month is absent from the dashboard sum
altogether; and every row of the per-client yearly grid carries exactly the
gated formula as its pool-fund figure. -/
theorem pool_fund_inclusion_and_formula (s : Store) (f : DashFilter)
    (clientId : Nat) (year : Int) :
    (dashboardMetrics s f).totalPoolFund =
        (((dashboardMonths s f).filter (fun cm =>
            decide (hsAmountOf s cm.id > 0 ∧
              (rentAmountOf s cm.id > 0 ∨ expensesAmountOf s cm.id > 0)))).map
          (fun cm =>
            hsAmountOf s cm.id - (rentAmountOf s cm.id + expensesAmountOf s cm.id))).sum ∧
      (yearlyFinancials s clientId year).all (fun e =>
        e.poolFund ==
          if e.housingSupport > 0 ∧ (e.rentPaid > 0 ∨ e.totalExpenses > 0) then
            e.housingSupport - (e.rentPaid + e.totalExpenses)
          else 0) = true := by
  constructor
  · rw [dashboardMetrics, dashboard_clients_totalPoolFund]
    simp [emptyMetrics, dashboardMonths]
  · simp only [yearlyFinancials, List.all_eq_true, List.mem_map]
    rintro e ⟨m, _, rfl⟩
    simp [gridEntry]

/-- C3: the remaining-balance metric is `housingSupport - rentPaid -
totalExpenses` for every month and is summed unconditionally: the dashboard
total sums it over every visited client-month with no inclusion predicate,
and every row of the yearly grid carries exactly that difference whether or
not the pool-fund predicate holds for it. -/
theorem remaining_balance_unconditional (s : Store) (f : DashFilter)
    (clientId : Nat) (year : Int) :
    (dashboardMetrics s f).totalRemainingBalance =
      ((dashboardMonths s f).map (fun cm =>
        hsAmountOf s cm.id - rentAmountOf s cm.id - expensesAmountOf s cm.id)).sum ∧
    (yearlyFinancials s clientId year).all (fun e =>
      e.remainingBalance == e.housingSupport - e.rentPaid - e.totalExpenses) = true := by
  constructor
  · rw [dashboardMetrics, dashboard_clients_totalRemainingBalance]
    simp [emptyMetrics, dashboardMonths]
  · simp only [yearlyFinancials, List.all_eq_true, List.mem_map]
    rintro e ⟨m, _, rfl⟩
    simp [gridEntry]

/-! ## Yearly report (`GET /api/reports`, routes.ts 400-464) -/

/-- One report row for one client (routes.ts 447-456); the county /
service-type display names are presentation only and elided. -/
structure ReportRow where
  clientId : Nat
  totalHousingSupport : Int
  totalRentPaid : Int
  totalExpenses : Int
  poolFund : Int
  deriving Repr, DecidableEq

/-- The report's per-client accumulation loop (routes.ts 424-439): one pass
over the client's year months, adding the three amounts. -/
def reportTotals (s : Store) (yearMonths : List ClientMonthRec) : Int × Int × Int :=
  yearMonths.foldl
    (fun t cm =>
      (t.1 + hsAmountOf s cm.id, t.2.1 + rentAmountOf s cm.id,
        t.2.2 + expensesAmountOf s cm.id))
    (0, 0, 0)

/-- The report row for one client (routes.ts 420-456): yearly totals, then
the pool fund gated on the *yearly* totals. -/
def reportRow (s : Store) (c : ClientRec) (year : Int) : ReportRow :=
  let totals := reportTotals s (yearMonthsOf s c.id year)
  let totalHousingSupport := totals.1
  let totalRentPaid := totals.2.1
  let totalExpenses := totals.2.2
  let hasRentOrExpenses := totalRentPaid > 0 ∨ totalExpenses > 0
  let poolFund :=
    if totalHousingSupport > 0 ∧ hasRentOrExpenses then
      totalHousingSupport - (totalRentPaid + totalExpenses)
    else 0
  { clientId := c.id
    totalHousingSupport := totalHousingSupport
    totalRentPaid := totalRentPaid
    totalExpenses := totalExpenses
    poolFund := poolFund }

lemma reportTotals_eq_sums (s : Store) (yearMonths : List ClientMonthRec) :
    reportTotals s yearMonths =
      ((yearMonths.map (fun cm => hsAmountOf s cm.id)).sum,
        (yearMonths.map (fun cm => rentAmountOf s cm.id)).sum,
        (yearMonths.map (fun cm => expensesAmountOf s cm.id)).sum) := by
  have aux : ∀ (l : List ClientMonthRec) (t : Int × Int × Int),
      l.foldl (fun t cm =>
        (t.1 + hsAmountOf s cm.id, t.2.1 + rentAmountOf s cm.id,
          t.2.2 + expensesAmountOf s cm.id)) t =
      (t.1 + (l.map (fun cm => hsAmountOf s cm.id)).sum,
        t.2.1 + (l.map (fun cm => rentAmountOf s cm.id)).sum,
        t.2.2 + (l.map (fun cm => expensesAmountOf s cm.id)).sum) := by
    intro l
    induction l with
    | nil => simp
    | cons cm rest ih =>
      intro t
      simp [ih]
      refine ⟨by ring, by ring, by ring⟩
  rw [reportTotals, aux]
  simp

/-- Key aggregation lemma: summing, over a duplicate-free list of month
numbers, the value of the first record found for each month equals summing
over the records themselves, provided every record's month occurs among the
month numbers and no two records share a month. -/
lemma sum_map_find_eq_sum (f : ClientMonthRec → Int) (ms : List Int)
    (L : List ClientMonthRec)
    (hmem : ∀ cm ∈ L, cm.month ∈ ms)
    (hnodupL : (L.map (fun cm => cm.month)).Nodup)
    (hms : ms.Nodup) :
    (ms.map (fun m =>
      ((L.find? (fun cm => cm.month == m)).map f).getD 0)).sum =
      (L.map f).sum := by
  induction L with
  | nil => simp
  | cons cm rest ih =>
    have hmem0 : cm.month ∈ ms := hmem cm (List.mem_cons_self _ _)
    have hperm : ms.Perm (cm.month :: ms.erase cm.month) :=
      List.perm_cons_erase hmem0
    have hrest : ∀ x ∈ rest, x.month ∈ ms := fun x hx =>
      hmem x (List.mem_cons_of_mem _ hx)
    have hnodupRest : (rest.map (fun cm => cm.month)).Nodup := by
      simpa using hnodupL.of_cons
    have hnotin : cm.month ∉ rest.map (fun cm => cm.month) := by
      have := hnodupL
      simp only [List.map_cons, List.nodup_cons] at this
      exact this.1
    have hfind_none : rest.find? (fun x => x.month == cm.month) = none := by
      rw [List.find?_eq_none]
      intro x hx
      simp only [beq_iff_eq]
      intro hEq
      exact hnotin (by
        rw [← hEq]
        exact List.mem_map_of_mem _ hx)
    -- step the `find?` under the map
    have hg : ∀ m : Int,
        (((cm :: rest).find? (fun x => x.month == m)).map f).getD 0 =
          if cm.month == m then f cm
          else ((rest.find? (fun x => x.month == m)).map f).getD 0 := by
      intro m
      by_cases h : cm.month = m
      · subst h
        simp [List.find?_cons]
      · have hb : (cm.month == m) = false := by
          simpa using h
        simp [List.find?_cons, hb]
    have hmap :
        (ms.map (fun m => (((cm :: rest).find? (fun x => x.month == m)).map f).getD 0)) =
          ms.map (fun m =>
            if cm.month == m then f cm
            else ((rest.find? (fun x => x.month == m)).map f).getD 0) :=
      List.map_congr_left (fun m _ => hg m)
    rw [hmap]
    -- reorder the sum so the matched month comes first
    have h1 :
        (ms.map (fun m =>
          if cm.month == m then f cm
          else ((rest.find? (fun x => x.month == m)).map f).getD 0)).sum =
        ((cm.month :: ms.erase cm.month).map (fun m =>
          if cm.month == m then f cm
          else ((rest.find? (fun x => x.month == m)).map f).getD 0)).sum :=
      (hperm.map _).sum_eq
    have h2 :
        (ms.map (fun m =>
          ((rest.find? (fun x => x.month == m)).map f).getD 0)).sum =
        ((cm.month :: ms.erase cm.month).map (fun m =>
          ((rest.find? (fun x => x.month == m)).map f).getD 0)).sum :=
      (hperm.map _).sum_eq
    have herase : ∀ m ∈ ms.erase cm.month, (cm.month == m) = false := by
      intro m hm
      have : m ≠ cm.month := ((hms.mem_erase_iff).mp hm).1
      simpa using fun h => this h.symm
    have herasemap :
        ((ms.erase cm.month).map (fun m =>
          if cm.month == m then f cm
          else ((rest.find? (fun x => x.month == m)).map f).getD 0)) =
        ((ms.erase cm.month).map (fun m =>
          ((rest.find? (fun x => x.month == m)).map f).getD 0)) :=
      List.map_congr_left (fun m hm => by rw [herase m hm]; simp)
    rw [h1]
    simp only [List.map_cons, List.sum_cons, beq_self_eq_true, if_pos rfl]
    rw [herasemap]
    have h3 :
        ((ms.erase cm.month).map (fun m =>
          ((rest.find? (fun x => x.month == m)).map f).getD 0)).sum =
        (ms.map (fun m =>
          ((rest.find? (fun x => x.month == m)).map f).getD 0)).sum := by
      rw [h2]
      simp [hfind_none]
    rw [h3, ih hrest hnodupRest]
    simp [List.sum_cons]

lemma gridEntry_housingSupport (s : Store) (yearMonths : List ClientMonthRec)
    (year m : Int) :
    (gridEntry s yearMonths year m).housingSupport =
      ((yearMonths.find? (fun cm => cm.month == m)).map
        (fun cm => hsAmountOf s cm.id)).getD 0 := by
  simp only [gridEntry]
  cases yearMonths.find? (fun cm => cm.month == m) <;> simp

lemma gridEntry_rentPaid (s : Store) (yearMonths : List ClientMonthRec)
    (year m : Int) :
    (gridEntry s yearMonths year m).rentPaid =
      ((yearMonths.find? (fun cm => cm.month == m)).map
        (fun cm => rentAmountOf s cm.id)).getD 0 := by
  simp only [gridEntry]
  cases yearMonths.find? (fun cm => cm.month == m) <;> simp

lemma gridEntry_totalExpenses (s : Store) (yearMonths : List ClientMonthRec)
    (year m : Int) :
    (gridEntry s yearMonths year m).totalExpenses =
      ((yearMonths.find? (fun cm => cm.month == m)).map
        (fun cm => expensesAmountOf s cm.id)).getD 0 := by
  simp only [gridEntry]
  cases yearMonths.find? (fun cm => cm.month == m) <;> simp

/-- C8 (amended): the 12-month grid and the yearly report agree on the
summed housing support, rent paid and expenses for a client and year — as
long as that client's year has at most one client-month per month number
and only month numbers 1..12 — but NOT in general on the pool-fund figure,
which the grid gates per month and the report gates on the yearly totals
(see the counterexample). -/
theorem grid_report_totals_consistent (s : Store) (c : ClientRec) (year : Int)
    (hrange : ∀ cm ∈ yearMonthsOf s c.id year, cm.month ∈ monthNumbers)
    (hnodup : ((yearMonthsOf s c.id year).map (fun cm => cm.month)).Nodup) :
    ((yearlyFinancials s c.id year).map (fun e => e.housingSupport)).sum =
        (reportRow s c year).totalHousingSupport ∧
      ((yearlyFinancials s c.id year).map (fun e => e.rentPaid)).sum =
        (reportRow s c year).totalRentPaid ∧
      ((yearlyFinancials s c.id year).map (fun e => e.totalExpenses)).sum =
        (reportRow s c year).totalExpenses := by
  have hms : monthNumbers.Nodup := by decide
  have hrep := reportTotals_eq_sums s (yearMonthsOf s c.id year)
  refine ⟨?_, ?_, ?_⟩
  · rw [yearlyFinancials, List.map_map]
    have := sum_map_find_eq_sum (fun cm => hsAmountOf s cm.id) monthNumbers
      (yearMonthsOf s c.id year) hrange hnodup hms
    rw [show ((fun e : GridEntry => e.housingSupport) ∘
        (fun m => gridEntry s (yearMonthsOf s c.id year) year m)) =
        (fun m => ((((yearMonthsOf s c.id year).find? (fun cm => cm.month == m)).map
          (fun cm => hsAmountOf s cm.id)).getD 0)) from
        funext (fun m => gridEntry_housingSupport s _ year m)]
    rw [this, reportRow]
    simp [hrep]
  · rw [yearlyFinancials, List.map_map]
    have := sum_map_find_eq_sum (fun cm => rentAmountOf s cm.id) monthNumbers
      (yearMonthsOf s c.id year) hrange hnodup hms
    rw [show ((fun e : GridEntry => e.rentPaid) ∘
        (fun m => gridEntry s (yearMonthsOf s c.id year) year m)) =
        (fun m => ((((yearMonthsOf s c.id year).find? (fun cm => cm.month == m)).map
          (fun cm => rentAmountOf s cm.id)).getD 0)) from
        funext (fun m => gridEntry_rentPaid s _ year m)]
    rw [this, reportRow]
    simp [hrep]
  · rw [yearlyFinancials, List.map_map]
    have := sum_map_find_eq_sum (fun cm => expensesAmountOf s cm.id) monthNumbers
      (yearMonthsOf s c.id year) hrange hnodup hms
    rw [show ((fun e : GridEntry => e.totalExpenses) ∘
        (fun m => gridEntry s (yearMonthsOf s c.id year) year m)) =
        (fun m => ((((yearMonthsOf s c.id year).find? (fun cm => cm.month == m)).map
          (fun cm => expensesAmountOf s cm.id)).getD 0)) from
        funext (fun m => gridEntry_totalExpenses s _ year m)]
    rw [this, reportRow]
    simp [hrep]

/-- A concrete client-year: month 1 has housing support 100 and no
deductions, month 2 has rent 50 and no support.  Per-month gating excludes
both months; yearly-total gating includes the client with pool 50. -/
def c8Store : Store :=
  { clients := [⟨1, "A", none, none⟩]
    clientMonths := [⟨10, 1, 2025, 1, false⟩, ⟨11, 1, 2025, 2, false⟩]
    housingSupports := [⟨20, 10, 100⟩]
    rentPayments := [⟨21, 11, some 50⟩]
    lthPayments := []
    expenses := []
    clientDocuments := []
    nextId := 30 }

/-- The client row of `c8Store`. -/
def c8Client : ClientRec := ⟨1, "A", none, none⟩

/-- C8 counterexample: for the client of `c8Store` in 2025, the grid's
pool-fund column sums to 0 (each month fails the per-month inclusion
predicate) while the report's pool-fund figure is 50 (the yearly totals
pass the predicate), so the grid and the report are NOT consistent for the
pool-fund figure. -/
theorem grid_report_poolFund_mismatch :
    ((yearlyFinancials c8Store 1 2025).map (fun e => e.poolFund)).sum = 0 ∧
      (reportRow c8Store c8Client 2025).poolFund = 50 ∧
      ((yearlyFinancials c8Store 1 2025).map (fun e => e.poolFund)).sum ≠
        (reportRow c8Store c8Client 2025).poolFund := by
  decide

/-- C8 witness: the amended consistency theorem applied to the concrete
store `c8Store`. -/
theorem grid_report_totals_consistent_witness :
    ((yearlyFinancials c8Store 1 2025).map (fun e => e.housingSupport)).sum =
        (reportRow c8Store c8Client 2025).totalHousingSupport ∧
      ((yearlyFinancials c8Store 1 2025).map (fun e => e.rentPaid)).sum =
        (reportRow c8Store c8Client 2025).totalRentPaid ∧
      ((yearlyFinancials c8Store 1 2025).map (fun e => e.totalExpenses)).sum =
        (reportRow c8Store c8Client 2025).totalExpenses :=
  grid_report_totals_consistent c8Store c8Client 2025 (by decide) (by decide)

/-! ## Pool-fund summary (`GET /api/pool-fund-summary`, routes.ts 469-566) -/

/-- One contribution row of the summary (routes.ts 533-541); the county
display name is presentation only and carried as the county id. -/
structure Contribution where
  clientId : Nat
  clientName : String
  countyId : Option Nat
  housingSupport : Int
  rentPaid : Int
  expenses : Int
  poolAmount : Int
  deriving Repr, DecidableEq

/-- The summary's scope filter (routes.ts 492-497): a specific month when
`month` is given, otherwise the whole year. -/
def summaryRelevantMonths (s : Store) (year : Int) (monthQ : Option Int)
    (clientId : Nat) : List ClientMonthRec :=
  (getClientMonths s clientId).filter (fun cm =>
    match monthQ with
    | some m => cm.year == year && cm.month == m
    | none => cm.year == year)

/-- The summary's per-client aggregates over the scope (routes.ts 501-523):
one pass over the relevant months adding the three amounts. -/
def summaryClientTotals (s : Store) (months : List ClientMonthRec) :
    Int × Int × Int :=
  months.foldl
    (fun t cm =>
      (t.1 + hsAmountOf s cm.id, t.2.1 + rentAmountOf s cm.id,
        t.2.2 + expensesAmountOf s cm.id))
    (0, 0, 0)

/-- The summary's running state (routes.ts 481-487). -/
structure SummaryAcc where
  totalPoolFund : Int
  positiveContributors : Nat
  negativeContributors : Nat
  contributions : List Contribution
  deriving Repr, DecidableEq

/-- One iteration of the summary's client loop (routes.ts 489-550): skip
clients without relevant months, aggregate the client's amounts over the
scope, and apply the inclusion predicate and pool formula to those
client-level aggregates. -/
def summaryClientStep (s : Store) (year : Int) (monthQ : Option Int)
    (acc : SummaryAcc) (c : ClientRec) : SummaryAcc :=
  let relevant := summaryRelevantMonths s year monthQ c.id
  if relevant.isEmpty then acc
  else
    let totals := summaryClientTotals s relevant
    let clientHousingSupport := totals.1
    let clientRentPaid := totals.2.1
    let clientExpenses := totals.2.2
    if clientHousingSupport > 0 ∧ (clientRentPaid > 0 ∨ clientExpenses > 0) then
      let poolAmount := clientHousingSupport - (clientRentPaid + clientExpenses)
      { totalPoolFund := acc.totalPoolFund + poolAmount
        positiveContributors :=
          if poolAmount ≥ 0 then acc.positiveContributors + 1
          else acc.positiveContributors
        negativeContributors :=
          if poolAmount ≥ 0 then acc.negativeContributors
          else acc.negativeContributors + 1
        contributions := acc.contributions ++
          [{ clientId := c.id
             clientName := c.fullName
             countyId := c.countyId
             housingSupport := clientHousingSupport
             rentPaid := clientRentPaid
             expenses := clientExpenses
             poolAmount := poolAmount }] }
    else acc

/-- The `contribLe` total preorder of the contribution sort: `a` may come
before `b` when `a.poolAmount ≥ b.poolAmount` (descending). -/
def contribLe (a b : Contribution) : Prop := b.poolAmount ≤ a.poolAmount

instance : DecidableRel contribLe := fun a b =>
  inferInstanceAs (Decidable (b.poolAmount ≤ a.poolAmount))

instance : IsTotal Contribution contribLe :=
  ⟨fun a b => le_total b.poolAmount a.poolAmount⟩

instance : IsTrans Contribution contribLe :=
  ⟨fun _ _ _ hab hbc => le_trans hbc hab⟩

/-- `contributions.sort((a, b) => b.poolAmount - a.poolAmount)`
(routes.ts 553).  ECMAScript `Array.prototype.sort` is required to be
stable, and a stable sort by a total preorder has a unique result, so the
embedding as a stable insertion sort is exact. -/
def sortContributionsDesc (l : List Contribution) : List Contribution :=
  l.insertionSort contribLe

/-- The summary response (routes.ts 555-561).  `filteredClients` is the
optional county restriction of routes.ts 483. -/
def poolFundSummary (s : Store) (year : Int) (monthQ : Option Int)
    (countyQ : Option Nat) : SummaryAcc :=
  let filteredClients : List ClientRec := match countyQ with
    | some cid => (getClients s).filter (fun c => c.countyId == some cid)
    | none => getClients s
  let acc := filteredClients.foldl (summaryClientStep s year monthQ)
    ⟨0, 0, 0, []⟩
  { acc with contributions := sortContributionsDesc acc.contributions }

/-- The clients of the summary's loop after the county restriction. -/
def summaryClients (s : Store) (countyQ : Option Nat) : List ClientRec :=
  match countyQ with
  | some cid => (getClients s).filter (fun c => c.countyId == some cid)
  | none => getClients s

/-- Client-level aggregate housing support over the summary scope. -/
def clientScopeHS (s : Store) (year : Int) (monthQ : Option Int) (c : ClientRec) : Int :=
  ((summaryRelevantMonths s year monthQ c.id).map (fun cm => hsAmountOf s cm.id)).sum

/-- Client-level aggregate rent paid over the summary scope. -/
def clientScopeRent (s : Store) (year : Int) (monthQ : Option Int) (c : ClientRec) : Int :=
  ((summaryRelevantMonths s year monthQ c.id).map (fun cm => rentAmountOf s cm.id)).sum

/-- Client-level aggregate expenses over the summary scope. -/
def clientScopeExpenses (s : Store) (year : Int) (monthQ : Option Int) (c : ClientRec) : Int :=
  ((summaryRelevantMonths s year monthQ c.id).map (fun cm => expensesAmountOf s cm.id)).sum

/-- The summary's inclusion predicate applied to the client-level
aggregates. -/
def clientIncluded (s : Store) (year : Int) (monthQ : Option Int) (c : ClientRec) : Prop :=
  clientScopeHS s year monthQ c > 0 ∧
    (clientScopeRent s year monthQ c > 0 ∨ clientScopeExpenses s year monthQ c > 0)

instance (s : Store) (year : Int) (monthQ : Option Int) (c : ClientRec) :
    Decidable (clientIncluded s year monthQ c) := by
  unfold clientIncluded; infer_instance

/-- The client-level pool amount over the summary scope. -/
def clientScopePool (s : Store) (year : Int) (monthQ : Option Int) (c : ClientRec) : Int :=
  clientScopeHS s year monthQ c -
    (clientScopeRent s year monthQ c + clientScopeExpenses s year monthQ c)

lemma summaryClientTotals_eq (s : Store) (year : Int) (monthQ : Option Int)
    (c : ClientRec) :
    summaryClientTotals s (summaryRelevantMonths s year monthQ c.id) =
      (clientScopeHS s year monthQ c, clientScopeRent s year monthQ c,
        clientScopeExpenses s year monthQ c) := by
  have aux : ∀ (l : List ClientMonthRec) (t : Int × Int × Int),
      l.foldl (fun t cm =>
        (t.1 + hsAmountOf s cm.id, t.2.1 + rentAmountOf s cm.id,
          t.2.2 + expensesAmountOf s cm.id)) t =
      (t.1 + (l.map (fun cm => hsAmountOf s cm.id)).sum,
        t.2.1 + (l.map (fun cm => rentAmountOf s cm.id)).sum,
        t.2.2 + (l.map (fun cm => expensesAmountOf s cm.id)).sum) := by
    intro l
    induction l with
    | nil => simp
    | cons cm rest ih =>
      intro t
      simp [ih]
      refine ⟨by ring, by ring, by ring⟩
  rw [summaryClientTotals, aux]
  simp [clientScopeHS, clientScopeRent, clientScopeExpenses]

/-- The contribution row the summary pushes for an included client
(routes.ts 533-541), written with the client-level scope aggregates. -/
def contribOf (s : Store) (year : Int) (monthQ : Option Int) (c : ClientRec) :
    Contribution :=
  { clientId := c.id
    clientName := c.fullName
    countyId := c.countyId
    housingSupport := clientScopeHS s year monthQ c
    rentPaid := clientScopeRent s year monthQ c
    expenses := clientScopeExpenses s year monthQ c
    poolAmount := clientScopePool s year monthQ c }

lemma summaryClientStep_eq (s : Store) (year : Int) (monthQ : Option Int)
    (acc : SummaryAcc) (c : ClientRec) :
    summaryClientStep s year monthQ acc c =
      if clientIncluded s year monthQ c then
        { totalPoolFund := acc.totalPoolFund + clientScopePool s year monthQ c
          positiveContributors :=
            if clientScopePool s year monthQ c ≥ 0 then acc.positiveContributors + 1
            else acc.positiveContributors
          negativeContributors :=
            if clientScopePool s year monthQ c ≥ 0 then acc.negativeContributors
            else acc.negativeContributors + 1
          contributions := acc.contributions ++ [contribOf s year monthQ c] }
      else acc := by
  by_cases hempty : (summaryRelevantMonths s year monthQ c.id).isEmpty
  · have hnil : summaryRelevantMonths s year monthQ c.id = [] :=
      List.isEmpty_iff.mp hempty
    have hnotincl : ¬ clientIncluded s year monthQ c := by
      simp [clientIncluded, clientScopeHS, hnil]
    simp [summaryClientStep, hempty, hnotincl]
  · simp only [summaryClientStep, hempty, Bool.false_eq_true, if_false,
      summaryClientTotals_eq, clientIncluded, contribOf, clientScopePool]

lemma summary_fold_characterization (s : Store) (year : Int) (monthQ : Option Int)
    (cs : List ClientRec) (acc : SummaryAcc) :
    (cs.foldl (summaryClientStep s year monthQ) acc).totalPoolFund =
        acc.totalPoolFund +
          ((cs.filter (fun c => decide (clientIncluded s year monthQ c))).map
            (clientScopePool s year monthQ)).sum ∧
      (cs.foldl (summaryClientStep s year monthQ) acc).positiveContributors =
        acc.positiveContributors +
          cs.countP (fun c => decide (clientIncluded s year monthQ c ∧
            clientScopePool s year monthQ c ≥ 0)) ∧
      (cs.foldl (summaryClientStep s year monthQ) acc).negativeContributors =
        acc.negativeContributors +
          cs.countP (fun c => decide (clientIncluded s year monthQ c ∧
            clientScopePool s year monthQ c < 0)) ∧
      (cs.foldl (summaryClientStep s year monthQ) acc).contributions.length =
        acc.contributions.length +
          cs.countP (fun c => decide (clientIncluded s year monthQ c)) := by
  induction cs generalizing acc with
  | nil => simp
  | cons c rest ih =>
    simp only [List.foldl_cons]
    obtain ⟨ih1, ih2, ih3, ih4⟩ := ih (summaryClientStep s year monthQ acc c)
    by_cases hincl : clientIncluded s year monthQ c
    · have hacc : summaryClientStep s year monthQ acc c =
          { totalPoolFund := acc.totalPoolFund + clientScopePool s year monthQ c
            positiveContributors :=
              if clientScopePool s year monthQ c ≥ 0 then acc.positiveContributors + 1
              else acc.positiveContributors
            negativeContributors :=
              if clientScopePool s year monthQ c ≥ 0 then acc.negativeContributors
              else acc.negativeContributors + 1
            contributions := acc.contributions ++ [contribOf s year monthQ c] } := by
        rw [summaryClientStep_eq, if_pos hincl]
      refine ⟨?_, ?_, ?_, ?_⟩
      · rw [ih1, hacc]
        simp [List.filter_cons, hincl, add_assoc]
      · rw [ih2, hacc, List.countP_cons]
        by_cases hpos : clientScopePool s year monthQ c ≥ 0
        · simp only [hacc]
          simp [hincl, hpos]
          omega
        · simp [hincl, hpos]
      · rw [ih3, hacc, List.countP_cons]
        by_cases hpos : clientScopePool s year monthQ c ≥ 0
        · have hnotneg : ¬ clientScopePool s year monthQ c < 0 := not_lt.mpr hpos
          simp [hincl, hpos, hnotneg]
        · have hneg : clientScopePool s year monthQ c < 0 := lt_of_not_ge hpos
          simp [hincl, hpos, hneg]
          omega
      · rw [ih4, hacc, List.countP_cons]
        simp [hincl]
        omega
    · have hacc : summaryClientStep s year monthQ acc c = acc := by
        rw [summaryClientStep_eq, if_neg hincl]
      refine ⟨?_, ?_, ?_, ?_⟩
      · rw [ih1, hacc]
        simp [List.filter_cons, hincl]
      · rw [ih2, hacc, List.countP_cons]
        simp [hincl]
      · rw [ih3, hacc, List.countP_cons]
        simp [hincl]
      · rw [ih4, hacc, List.countP_cons]
        simp [hincl]

/-- C2 (amended): the pool-fund summary aggregates each client's housing
support, rent and expenses over the whole scope first and applies the
inclusion predicate and pool formula to those client-level aggregates:
`totalPoolFund` is the sum of client-aggregate pool amounts over the
clients whose aggregates pass the predicate, the contribution count (the
response's `totalContributors`) counts exactly those clients, and the
positive/negative contributor counts split them by the sign (≥ 0 versus
< 0) of the client-aggregate pool amount.  (For a single-month scope this
coincides with per-client-month inclusion; for a year scope it does not —
see the counterexample.) -/
theorem pool_fund_summary_client_level (s : Store) (year : Int)
    (monthQ : Option Int) (countyQ : Option Nat) :
    (poolFundSummary s year monthQ countyQ).totalPoolFund =
        (((summaryClients s countyQ).filter
            (fun c => decide (clientIncluded s year monthQ c))).map
          (clientScopePool s year monthQ)).sum ∧
      (poolFundSummary s year monthQ countyQ).contributions.length =
        (summaryClients s countyQ).countP
          (fun c => decide (clientIncluded s year monthQ c)) ∧
      (poolFundSummary s year monthQ countyQ).positiveContributors =
        (summaryClients s countyQ).countP
          (fun c => decide (clientIncluded s year monthQ c ∧
            clientScopePool s year monthQ c ≥ 0)) ∧
      (poolFundSummary s year monthQ countyQ).negativeContributors =
        (summaryClients s countyQ).countP
          (fun c => decide (clientIncluded s year monthQ c ∧
            clientScopePool s year monthQ c < 0)) := by
  obtain ⟨h1, h2, h3, h4⟩ :=
    summary_fold_characterization s year monthQ (summaryClients s countyQ)
      ⟨0, 0, 0, []⟩
  refine ⟨?_, ?_, ?_, ?_⟩
  · simpa [poolFundSummary, summaryClients] using h1
  · simpa [poolFundSummary, summaryClients, sortContributionsDesc,
      List.length_insertionSort] using h4
  · simpa [poolFundSummary, summaryClients] using h2
  · simpa [poolFundSummary, summaryClients] using h3

/-- A concrete store refuting per-client-month aggregation of the summary:
one client whose 2025 has a support-only month (100, no deductions) and a
rent-only month (50, no support). -/
def c2Store : Store :=
  { clients := [⟨1, "A", none, none⟩]
    clientMonths := [⟨10, 1, 2025, 1, false⟩, ⟨11, 1, 2025, 2, false⟩]
    housingSupports := [⟨20, 10, 100⟩]
    rentPayments := [⟨21, 11, some 50⟩]
    lthPayments := []
    expenses := []
    clientDocuments := []
    nextId := 30 }

/-- C2 counterexample: for the year scope 2025 of `c2Store`, no single
client-month passes the inclusion predicate, so the claimed per-client-month
sum is empty (0 with 0 contributing clients), yet the endpoint reports
`totalPoolFund = 50` with one contributor — the code gates on client-level
yearly aggregates, not on client-months. -/
theorem pool_fund_summary_not_per_month :
    (((getClients c2Store).flatMap
        (fun c => summaryRelevantMonths c2Store 2025 none c.id)).filter
      (fun cm => decide (hsAmountOf c2Store cm.id > 0 ∧
        (rentAmountOf c2Store cm.id > 0 ∨ expensesAmountOf c2Store cm.id > 0)))) = [] ∧
      (poolFundSummary c2Store 2025 none none).totalPoolFund = 50 ∧
      (poolFundSummary c2Store 2025 none none).contributions.length = 1 ∧
      (poolFundSummary c2Store 2025 none none).totalPoolFund ≠
        ((((getClients c2Store).flatMap
            (fun c => summaryRelevantMonths c2Store 2025 none c.id)).filter
          (fun cm => decide (hsAmountOf c2Store cm.id > 0 ∧
            (rentAmountOf c2Store cm.id > 0 ∨ expensesAmountOf c2Store cm.id > 0)))).map
          (fun cm => hsAmountOf c2Store cm.id -
            (rentAmountOf c2Store cm.id + expensesAmountOf c2Store cm.id))).sum := by
  decide

/-! ## Ordering of the contribution listing (C9) -/

lemma filter_orderedInsert_poolAmount (k : Int) (x : Contribution) :
    ∀ l : List Contribution,
      ((l.orderedInsert contribLe x).filter (fun c => c.poolAmount == k)) =
        if x.poolAmount == k then
          x :: l.filter (fun c => c.poolAmount == k)
        else l.filter (fun c => c.poolAmount == k) := by
  intro l
  induction l with
  | nil =>
    by_cases hx : x.poolAmount = k <;> simp [List.orderedInsert, hx]
  | cons b t ih =>
    by_cases hr : contribLe x b
    · by_cases hx : x.poolAmount = k <;>
        simp [List.orderedInsert, if_pos hr, List.filter_cons, hx]
    · have hlt : x.poolAmount < b.poolAmount := lt_of_not_ge hr
      by_cases hx : x.poolAmount = k
      · have hb : ¬ b.poolAmount = k := by
          intro hbk
          rw [hbk, ← hx] at hlt
          exact lt_irrefl _ hlt
        simp [List.orderedInsert, if_neg hr, List.filter_cons, ih, hx, hb]
      · simp [List.orderedInsert, if_neg hr, List.filter_cons, ih, hx]

lemma filter_sortContributionsDesc (k : Int) (l : List Contribution) :
    (sortContributionsDesc l).filter (fun c => c.poolAmount == k) =
      l.filter (fun c => c.poolAmount == k) := by
  induction l with
  | nil => rfl
  | cons x t ih =>
    rw [sortContributionsDesc, List.insertionSort,
      filter_orderedInsert_poolAmount, List.filter_cons]
    by_cases hx : x.poolAmount = k
    · rw [sortContributionsDesc] at ih
      simp [hx, ih]
    · rw [sortContributionsDesc] at ih
      simp [hx, ih]

/-- C9: the contribution listing is sorted by `poolAmount` in descending
order (most positive first), is a permutation of the accumulated list, and
is stable: for every pool-amount value, the entries carrying it appear in
exactly their original insertion order, with no secondary sort key. -/
theorem contributions_sorted_desc_stable (l : List Contribution) :
    List.Sorted contribLe (sortContributionsDesc l) ∧
      List.Perm (sortContributionsDesc l) l ∧
      ∀ k : Int, (sortContributionsDesc l).filter (fun c => c.poolAmount == k) =
        l.filter (fun c => c.poolAmount == k) :=
  ⟨List.sorted_insertionSort contribLe l, List.perm_insertionSort contribLe l,
    fun k => filter_sortContributionsDesc k l⟩

/-! ## Service-agreement mutation gate (`isServiceAgreementBlocked`,
routes.ts 73-85) and `POST /api/housing-supports` (routes.ts 1379-1403) -/

/-- The expiry of the service-agreement document the gate examines
(routes.ts 76-78): the handler filters the client's documents to service
agreements that carry an expiry date, sorts them by expiry descending and
takes the first; only that document's expiry value is used afterwards, so
the embedding takes the maximum expiry value. -/
def latestSaExpiry (s : Store) (clientId : Nat) : Option Int :=
  ((getClientDocuments s clientId).filterMap
    (fun d =>
      if d.documentType == DocType.serviceAgreement then d.expiryDate
      else none)).max?

/-- `isServiceAgreementBlocked` (routes.ts 73-85): a super-admin is never
blocked; with no service-agreement expiry on file the client is not
blocked; an unexpired latest agreement does not block; an expired one
blocks unless the client's manual `statusOverride` is `"active"` (a missing
client record blocks). -/
def isServiceAgreementBlocked (s : Store) (clientId : Nat) (role : Role)
    (now : Int) : Bool :=
  if role == Role.superAdmin then false
  else
    match latestSaExpiry s clientId with
    | none => false
    | some expiry =>
      if expiry ≥ now then false
      else
        match getClient s clientId with
        | some c => if c.statusOverride == some "active" then false else true
        | none => true

/-- Outcome of `POST /api/housing-supports` (routes.ts 1379-1403): the
created row id (status 201) or the 403 rejection `"Financial edits blocked -
service agreement expired"`.  The handler consults only the
service-agreement gate — it never reads `ClientMonth.isLocked`. -/
inductive CreateOutcome where
  | created (rowId : Nat)
  | serviceAgreementBlocked
  deriving Repr, DecidableEq

/-- `POST /api/housing-supports` (routes.ts 1379-1403): look up the
client-month, run the service-agreement gate on its client, and insert the
row unless the gate blocks (with no client-month found the handler skips
the gate and inserts). -/
def createHousingSupportRoute (s : Store) (role : Role) (now : Int)
    (clientMonthId : Nat) (amount : Int) : CreateOutcome × Store :=
  match getClientMonth s clientMonthId with
  | some cm =>
    if isServiceAgreementBlocked s cm.clientId role now then
      (CreateOutcome.serviceAgreementBlocked, s)
    else
      let created := createHousingSupport s clientMonthId amount
      (CreateOutcome.created created.1.id, created.2)
  | none =>
    let created := createHousingSupport s clientMonthId amount
    (CreateOutcome.created created.1.id, created.2)

/-- C5: on a financial-record create, (1) an admin is rejected with the
service-agreement error and nothing is written when the latest
service-agreement expiry is in the past and the client has no active
status-override; (2) an active status-override lets the mutation through
despite expiry; (3) with no service-agreement expiry on file the mutation
is permitted; (4) a super-admin is never blocked by this check. -/
theorem service_agreement_gate (s : Store) (role : Role) (now : Int)
    (cmId : Nat) (cm : ClientMonthRec) (amount : Int)
    (hcm : getClientMonth s cmId = some cm) :
    ((role = Role.admin) →
      ((latestSaExpiry s cm.clientId).any (fun e => decide (e < now))) = true →
      ((getClient s cm.clientId).all
        (fun c => !(c.statusOverride == some "active"))) = true →
      createHousingSupportRoute s role now cmId amount =
        (CreateOutcome.serviceAgreementBlocked, s)) ∧
      (((getClient s cm.clientId).any
          (fun c => c.statusOverride == some "active")) = true →
        (createHousingSupportRoute s role now cmId amount).1 =
          CreateOutcome.created s.nextId) ∧
      (latestSaExpiry s cm.clientId = none →
        (createHousingSupportRoute s role now cmId amount).1 =
          CreateOutcome.created s.nextId) ∧
      (role = Role.superAdmin →
        (createHousingSupportRoute s role now cmId amount).1 =
          CreateOutcome.created s.nextId) := by
  refine ⟨?_, ?_, ?_, ?_⟩
  · intro hrole hexp hov
    subst hrole
    obtain ⟨e, he, helt⟩ : ∃ e, latestSaExpiry s cm.clientId = some e ∧ e < now := by
      cases hsa : latestSaExpiry s cm.clientId with
      | none => rw [hsa] at hexp; simp [Option.any] at hexp
      | some e =>
        refine ⟨e, rfl, ?_⟩
        rw [hsa] at hexp
        simpa [Option.any] using hexp
    have hblocked : isServiceAgreementBlocked s cm.clientId Role.admin now = true := by
      rw [isServiceAgreementBlocked, he]
      have hnow : ¬ e ≥ now := not_le.mpr helt
      cases hcli : getClient s cm.clientId with
      | none => simp [hnow]
      | some c =>
        have : (c.statusOverride == some "active") = false := by
          rw [hcli] at hov
          simpa [Option.all] using hov
        simp [hnow, this]
    rw [createHousingSupportRoute, hcm]
    simp [hblocked]
  · intro hov
    obtain ⟨c, hcli, hact⟩ :
        ∃ c, getClient s cm.clientId = some c ∧
          (c.statusOverride == some "active") = true := by
      cases hcli : getClient s cm.clientId with
      | none => rw [hcli] at hov; simp [Option.any] at hov
      | some c =>
        refine ⟨c, rfl, ?_⟩
        rw [hcli] at hov
        simpa [Option.any] using hov
    have hnotblocked : isServiceAgreementBlocked s cm.clientId role now = false := by
      rw [isServiceAgreementBlocked]
      cases role with
      | superAdmin => simp
      | admin =>
        cases hsa : latestSaExpiry s cm.clientId with
        | none => simp
        | some e =>
          by_cases hnow : e ≥ now
          · simp [hnow]
          · simp [hnow, hcli, hact]
    rw [createHousingSupportRoute, hcm]
    simp [hnotblocked, createHousingSupport]
  · intro hsa
    have hnotblocked : isServiceAgreementBlocked s cm.clientId role now = false := by
      rw [isServiceAgreementBlocked, hsa]
      cases role <;> simp
    rw [createHousingSupportRoute, hcm]
    simp [hnotblocked, createHousingSupport]
  · intro hrole
    subst hrole
    have hnotblocked :
        isServiceAgreementBlocked s cm.clientId Role.superAdmin now = false := by
      rw [isServiceAgreementBlocked]
      simp
    rw [createHousingSupportRoute, hcm]
    simp [hnotblocked, createHousingSupport]

/-- A client whose only service agreement expired at time 100, with no
status override, and an existing (unlocked) client-month. -/
def c5Store : Store :=
  { clients := [⟨1, "A", none, none⟩]
    clientMonths := [⟨10, 1, 2025, 1, false⟩]
    housingSupports := []
    rentPayments := []
    lthPayments := []
    expenses := []
    clientDocuments := [⟨30, 1, DocType.serviceAgreement, some 100⟩]
    nextId := 40 }

/-- C5 witness: at time 200 (past the expiry 100), an admin's housing
support create on `c5Store` is rejected by the gate and the store is
unchanged. -/
theorem service_agreement_gate_witness :
    createHousingSupportRoute c5Store Role.admin 200 10 500 =
      (CreateOutcome.serviceAgreementBlocked, c5Store) :=
  (service_agreement_gate c5Store Role.admin 200 10 ⟨10, 1, 2025, 1, false⟩ 500
    (by decide)).1 rfl (by decide) (by decide)

/-- A locked client-month (`isLocked = true`) for an ordinary client with
no documents. -/
def c4Store : Store :=
  { clients := [⟨1, "A", none, none⟩]
    clientMonths := [⟨10, 1, 2025, 1, true⟩]
    housingSupports := []
    rentPayments := []
    lthPayments := []
    expenses := []
    clientDocuments := []
    nextId := 20 }

/-- C4: evaluation at the failing input.  The client-month of `c4Store` is
locked, yet an admin's `POST /api/housing-supports` succeeds and writes the
row — the handler never consults `ClientMonth.isLocked`, so no
edit-window rejection exists on this path (the super-admin request succeeds
as well, as the claim says). -/
theorem locked_month_create_not_rejected :
    (getClientMonth c4Store 10).map (fun cm => cm.isLocked) = some true ∧
      createHousingSupportRoute c4Store Role.admin 0 10 500 =
        (CreateOutcome.created 20,
          { c4Store with housingSupports := [⟨20, 10, 500⟩], nextId := 21 }) ∧
      (createHousingSupportRoute c4Store Role.superAdmin 0 10 500).1 =
        CreateOutcome.created 20 := by
  decide

/-! ## Client-month lookup-or-create (C6) -/

/-- The get-then-create pattern of `POST /api/bulk-updates`
(routes.ts 315-324): look the period up, create with `isLocked := false`
when absent.  This is application logic — the schema backs it with no
uniqueness constraint. -/
def lookupOrCreateClientMonth (s : Store) (clientId : Nat) (year month : Int) :
    ClientMonthRec × Store :=
  match getClientMonthByPeriod s clientId year month with
  | some cm => (cm, s)
  | none => createClientMonth s clientId year month false

/-- The empty store. -/
def emptyStore : Store :=
  { clients := []
    clientMonths := []
    housingSupports := []
    rentPayments := []
    lthPayments := []
    expenses := []
    clientDocuments := []
    nextId := 0 }

/-- C6 counterexample: `createClientMonth` (the storage insert behind
`POST /api/client-months` and the bulk path) inserts unconditionally, so
calling it twice with the key (7, 2025, 3) yields a state with TWO
client-month rows for that key, with different ids — the backing store
enforces no uniqueness constraint on (client, year, month). -/
theorem client_month_duplicate_keys_possible :
    ((createClientMonth (createClientMonth emptyStore 7 2025 3 false).2
        7 2025 3 false).2.clientMonths.filter
      (fun cm => cm.clientId == 7 && cm.year == 2025 && cm.month == 3)).length = 2 ∧
      (createClientMonth emptyStore 7 2025 3 false).1.id ≠
        (createClientMonth (createClientMonth emptyStore 7 2025 3 false).2
          7 2025 3 false).1.id := by
  decide

/-- C6 (amended): the get-then-create pattern of the bulk route is
sequentially idempotent: a second lookup-or-create with the same
(clientId, year, month) returns the same record id and leaves the store
unchanged.  (Uniqueness is NOT enforced by a backing-store constraint —
see the counterexample — so this holds only for the application-level
lookup path, not for direct creates.) -/
theorem lookup_or_create_idempotent (s : Store) (clientId : Nat)
    (year month : Int) :
    (lookupOrCreateClientMonth (lookupOrCreateClientMonth s clientId year month).2
        clientId year month).1.id =
        (lookupOrCreateClientMonth s clientId year month).1.id ∧
      (lookupOrCreateClientMonth (lookupOrCreateClientMonth s clientId year month).2
        clientId year month).2 =
        (lookupOrCreateClientMonth s clientId year month).2 := by
  cases h : getClientMonthByPeriod s clientId year month with
  | some cm => simp [lookupOrCreateClientMonth, h]
  | none =>
    have hfind : getClientMonthByPeriod
        (createClientMonth s clientId year month false).2 clientId year month =
        some (createClientMonth s clientId year month false).1 := by
      rw [getClientMonthByPeriod] at h ⊢
      simp [createClientMonth, List.find?_append, h]
    simp [lookupOrCreateClientMonth, h, hfind]

/-! ## Financial delete endpoints (C10) -/

/-- `DELETE /api/expenses/:id` (routes.ts 1635-1650): after auth, the
handler reads the old row for the audit trail, deletes, and answers 204 —
it consults neither `ClientMonth.isLocked` nor the service-agreement gate,
and never inspects the actor's role. -/
def deleteExpenseRoute (s : Store) (role : Role) (id : Nat) : Nat × Store :=
  (204, deleteExpense s id)

/-- `DELETE /api/lth-payments/:id` (routes.ts 1556-1571): same shape as the
expense delete. -/
def deleteLthPaymentRoute (s : Store) (role : Role) (id : Nat) : Nat × Store :=
  (204, deleteLthPayment s id)

/-- C10: for either role and any store — even one whose client-month is
locked and whose client is blocked by an expired service agreement — the
delete endpoints answer 204, remove exactly the addressed row, and leave
the client-months (hence the lock state) untouched; neither the
edit-window check nor the service-agreement check is ever consulted. -/
theorem delete_routes_ignore_lock_and_agreement (s : Store) (role : Role)
    (now : Int) (eid lid : Nat) (cm : ClientMonthRec)
    (hcm : cm ∈ s.clientMonths) (hlock : cm.isLocked = true)
    (hblocked : isServiceAgreementBlocked s cm.clientId Role.admin now = true) :
    (deleteExpenseRoute s role eid).1 = 204 ∧
      (∀ r ∈ (deleteExpenseRoute s role eid).2.expenses, r.id ≠ eid) ∧
      (∀ r ∈ s.expenses, r.id ≠ eid → r ∈ (deleteExpenseRoute s role eid).2.expenses) ∧
      (deleteExpenseRoute s role eid).2.clientMonths = s.clientMonths ∧
      (deleteLthPaymentRoute s role lid).1 = 204 ∧
      (∀ r ∈ (deleteLthPaymentRoute s role lid).2.lthPayments, r.id ≠ lid) ∧
      (∀ r ∈ s.lthPayments, r.id ≠ lid →
        r ∈ (deleteLthPaymentRoute s role lid).2.lthPayments) ∧
      (deleteLthPaymentRoute s role lid).2.clientMonths = s.clientMonths := by
  refine ⟨rfl, ?_, ?_, rfl, rfl, ?_, ?_, rfl⟩
  · intro r hr
    simp [deleteExpenseRoute, deleteExpense, List.mem_filter] at hr
    exact hr.2
  · intro r hr hne
    simp [deleteExpenseRoute, deleteExpense, List.mem_filter, hr, hne]
  · intro r hr
    simp [deleteLthPaymentRoute, deleteLthPayment, List.mem_filter] at hr
    exact hr.2
  · intro r hr hne
    simp [deleteLthPaymentRoute, deleteLthPayment, List.mem_filter, hr, hne]

/-- A store with a locked client-month, an expired service agreement, one
expense row (id 5) and one LTH row (id 6). -/
def c10Store : Store :=
  { clients := [⟨1, "A", none, none⟩]
    clientMonths := [⟨10, 1, 2025, 1, true⟩]
    housingSupports := []
    rentPayments := []
    lthPayments := [⟨6, 10, 25⟩]
    expenses := [⟨5, 10, 40⟩]
    clientDocuments := [⟨30, 1, DocType.serviceAgreement, some 100⟩]
    nextId := 50 }

/-- C10 witness: both deletes succeed with 204 on `c10Store`, whose month
is locked and whose client has an expired service agreement (time 200). -/
theorem delete_routes_witness :
    (deleteExpenseRoute c10Store Role.admin 5).1 = 204 ∧
      (deleteLthPaymentRoute c10Store Role.admin 6).1 = 204 :=
  ⟨(delete_routes_ignore_lock_and_agreement c10Store Role.admin 200 5 6
      ⟨10, 1, 2025, 1, true⟩ (by decide) (by decide) (by decide)).1,
    (delete_routes_ignore_lock_and_agreement c10Store Role.admin 200 5 6
      ⟨10, 1, 2025, 1, true⟩ (by decide) (by decide) (by decide)).2.2.2.2.1⟩

/-! ## Bulk updates (`POST /api/bulk-updates`, routes.ts 301-395) -/

/-- The `financialType` of a bulk update (routes.ts 330-371). -/
inductive FinancialType where
  | housingSupport
  | rent
  | expense
  | lth
  deriving Repr, DecidableEq

/-- The `switch (financialType)` block of the bulk loop (routes.ts
330-371): update the singleton row when it exists for housing support and
rent, insert otherwise; always insert a new row for expense and LTH. -/
def bulkWrite (s : Store) (ft : FinancialType) (amount : Int) (cmId : Nat) :
    Store :=
  match ft with
  | .housingSupport =>
    match getHousingSupport s cmId with
    | some existing => updateHousingSupport s existing.id amount
    | none => (createHousingSupport s cmId amount).2
  | .rent =>
    match getRentPayment s cmId with
    | some existing => updateRentPayment s existing.id (some amount)
    | none => (createRentPayment s cmId (some amount)).2
  | .expense => (createExpense s cmId amount).2
  | .lth => (createLthPayment s cmId amount).2

/-- One client's processing inside the bulk loop (routes.ts 311-374), after
the falsy-amount skip: find-or-create the client-month, silently `continue`
when it is locked and the actor is not a super-admin, otherwise run the
`switch` write.  Returns the new store and whether `updatedCount` was
incremented. -/
def bulkApplyOne (s : Store) (role : Role) (year month : Int)
    (ft : FinancialType) (amount : Int) (clientId : Nat) : Store × Bool :=
  let found := lookupOrCreateClientMonth s clientId year month
  let clientMonth := found.1
  let s1 := found.2
  if clientMonth.isLocked ∧ role ≠ Role.superAdmin then (s1, false)
  else (bulkWrite s1 ft amount clientMonth.id, true)

/-- One iteration of the bulk loop (routes.ts 311-374): `getAmount` models
`useUniformAmount ? amount : clientAmounts[clientId]`, with `none` for a
JavaScript-falsy amount — `if (!clientAmount) continue` runs before any
lookup. -/
def bulkStep (role : Role) (year month : Int) (ft : FinancialType)
    (getAmount : Nat → Option Int) (acc : Store × Nat) (clientId : Nat) :
    Store × Nat :=
  match getAmount clientId with
  | none => acc
  | some amt =>
    let r := bulkApplyOne acc.1 role year month ft amt clientId
    (r.1, if r.2 then acc.2 + 1 else acc.2)

/-- `POST /api/bulk-updates` (routes.ts 301-395): the loop over the client
ids, starting from `updatedCount = 0`. -/
def bulkUpdateRoute (s : Store) (role : Role) (year month : Int)
    (ft : FinancialType) (getAmount : Nat → Option Int)
    (clientIds : List Nat) : Store × Nat :=
  clientIds.foldl (bulkStep role year month ft getAmount) (s, 0)

/-- Whether the (clientId, year, month) period has a pre-existing locked
client-month. -/
def lockedAt (s : Store) (clientId : Nat) (year month : Int) : Bool :=
  match getClientMonthByPeriod s clientId year month with
  | some cm => cm.isLocked
  | none => false

/-- The ids of the client-months of one client's (year, month) period. -/
def periodCmIds (s : Store) (clientId : Nat) (year month : Int) : List Nat :=
  (s.clientMonths.filter (fun cm =>
    cm.clientId == clientId && cm.year == year && cm.month == month)).map
    (fun cm => cm.id)

/-- All financial rows attached to one client's (year, month) period: the
data a skipped client must keep unchanged. -/
def periodData (s : Store) (clientId : Nat) (year month : Int) :
    List HousingSupportRow × List RentPaymentRow × List LthPaymentRow ×
      List ExpenseRow :=
  (s.housingSupports.filter
      (fun r => (periodCmIds s clientId year month).contains r.clientMonthId),
    s.rentPayments.filter
      (fun r => (periodCmIds s clientId year month).contains r.clientMonthId),
    s.lthPayments.filter
      (fun r => (periodCmIds s clientId year month).contains r.clientMonthId),
    s.expenses.filter
      (fun r => (periodCmIds s clientId year month).contains r.clientMonthId))

/-- Well-formedness of the store: every table's ids are duplicate-free and
below the fresh-id counter (true of uuid-keyed tables; preserved by every
storage operation). -/
def WellFormedStore (s : Store) : Prop :=
  (s.clientMonths.map (fun cm => cm.id)).Nodup ∧
    (s.housingSupports.map (fun r => r.id)).Nodup ∧
    (s.rentPayments.map (fun r => r.id)).Nodup ∧
    (∀ cm ∈ s.clientMonths, cm.id < s.nextId) ∧
    (∀ r ∈ s.housingSupports, r.id < s.nextId) ∧
    (∀ r ∈ s.rentPayments, r.id < s.nextId) ∧
    (∀ r ∈ s.lthPayments, r.id < s.nextId) ∧
    (∀ r ∈ s.expenses, r.id < s.nextId)

instance (s : Store) : Decidable (WellFormedStore s) := by
  unfold WellFormedStore; infer_instance

lemma contains_true_iff (l : List Nat) (a : Nat) :
    l.contains a = true ↔ a ∈ l := by
  simp [List.contains, List.elem_iff]

lemma contains_false_of_not_mem (l : List Nat) (a : Nat) (h : a ∉ l) :
    l.contains a = false := by
  cases hc : l.contains a with
  | false => rfl
  | true => exact absurd ((contains_true_iff l a).mp hc) h

lemma getClientMonthByPeriod_spec (s : Store) (cid : Nat) (y m : Int)
    (cm : ClientMonthRec) (h : getClientMonthByPeriod s cid y m = some cm) :
    cm ∈ s.clientMonths ∧ cm.clientId = cid ∧ cm.year = y ∧ cm.month = m := by
  refine ⟨List.mem_of_find?_eq_some h, ?_⟩
  have := List.find?_some h
  simp at this
  exact ⟨this.1.1, this.1.2, this.2⟩

lemma lockedAt_createClientMonth (s : Store) (cid : Nat) (y m : Int)
    (hnone : getClientMonthByPeriod s cid y m = none) (cid' : Nat) :
    lockedAt (createClientMonth s cid y m false).2 cid' y m =
      lockedAt s cid' y m := by
  by_cases h : cid' = cid
  · subst h
    rw [getClientMonthByPeriod] at hnone
    simp only [lockedAt, getClientMonthByPeriod, createClientMonth]
    simp [List.find?_append, hnone, List.find?]
  · have hb : (cid == cid') = false := by
      simp only [beq_eq_false_iff_ne]
      exact fun hc => h hc.symm
    simp only [lockedAt, getClientMonthByPeriod, createClientMonth]
    simp [List.find?_append, List.find?, hb]

lemma periodCmIds_createClientMonth_ne (s : Store) (cid : Nat) (y m : Int)
    (lk : Bool) (cid' : Nat) (hne : cid' ≠ cid) :
    periodCmIds (createClientMonth s cid y m lk).2 cid' y m =
      periodCmIds s cid' y m := by
  have hb : (cid == cid') = false := by
    simp only [beq_eq_false_iff_ne]
    exact fun hc => hne hc.symm
  simp only [periodCmIds, createClientMonth]
  simp [List.filter_append, List.filter, hb]

lemma periodData_createClientMonth_ne (s : Store) (cid : Nat) (y m : Int)
    (lk : Bool) (cid' : Nat) (hne : cid' ≠ cid) :
    periodData (createClientMonth s cid y m lk).2 cid' y m =
      periodData s cid' y m := by
  have hids := periodCmIds_createClientMonth_ne s cid y m lk cid' hne
  rw [periodData, periodData, hids]
  rfl

lemma periodData_createHousingSupport (s : Store) (cmId : Nat) (a : Int)
    (cid' : Nat) (y m : Int) (hnotin : cmId ∉ periodCmIds s cid' y m) :
    periodData (createHousingSupport s cmId a).2 cid' y m =
      periodData s cid' y m := by
  have hc : (periodCmIds s cid' y m).contains cmId = false :=
    contains_false_of_not_mem _ _ hnotin
  have hids : periodCmIds (createHousingSupport s cmId a).2 cid' y m =
      periodCmIds s cid' y m := rfl
  have hhs : (createHousingSupport s cmId a).2.housingSupports =
      s.housingSupports ++ [⟨s.nextId, cmId, a⟩] := rfl
  have h2 : (createHousingSupport s cmId a).2.rentPayments = s.rentPayments := rfl
  have h3 : (createHousingSupport s cmId a).2.lthPayments = s.lthPayments := rfl
  have h4 : (createHousingSupport s cmId a).2.expenses = s.expenses := rfl
  rw [periodData, periodData, hids, hhs, h2, h3, h4, List.filter_append]
  simp [List.filter, hnotin]

lemma periodData_createRentPayment (s : Store) (cmId : Nat) (a : Option Int)
    (cid' : Nat) (y m : Int) (hnotin : cmId ∉ periodCmIds s cid' y m) :
    periodData (createRentPayment s cmId a).2 cid' y m =
      periodData s cid' y m := by
  have hc : (periodCmIds s cid' y m).contains cmId = false :=
    contains_false_of_not_mem _ _ hnotin
  have hids : periodCmIds (createRentPayment s cmId a).2 cid' y m =
      periodCmIds s cid' y m := rfl
  have hr : (createRentPayment s cmId a).2.rentPayments =
      s.rentPayments ++ [⟨s.nextId, cmId, a⟩] := rfl
  have h2 : (createRentPayment s cmId a).2.housingSupports = s.housingSupports := rfl
  have h3 : (createRentPayment s cmId a).2.lthPayments = s.lthPayments := rfl
  have h4 : (createRentPayment s cmId a).2.expenses = s.expenses := rfl
  rw [periodData, periodData, hids, hr, h2, h3, h4, List.filter_append]
  simp [List.filter, hnotin]

lemma periodData_createLthPayment (s : Store) (cmId : Nat) (a : Int)
    (cid' : Nat) (y m : Int) (hnotin : cmId ∉ periodCmIds s cid' y m) :
    periodData (createLthPayment s cmId a).2 cid' y m =
      periodData s cid' y m := by
  have hc : (periodCmIds s cid' y m).contains cmId = false :=
    contains_false_of_not_mem _ _ hnotin
  have hids : periodCmIds (createLthPayment s cmId a).2 cid' y m =
      periodCmIds s cid' y m := rfl
  have hr : (createLthPayment s cmId a).2.lthPayments =
      s.lthPayments ++ [⟨s.nextId, cmId, a⟩] := rfl
  have h2 : (createLthPayment s cmId a).2.housingSupports = s.housingSupports := rfl
  have h3 : (createLthPayment s cmId a).2.rentPayments = s.rentPayments := rfl
  have h4 : (createLthPayment s cmId a).2.expenses = s.expenses := rfl
  rw [periodData, periodData, hids, hr, h2, h3, h4, List.filter_append]
  simp [List.filter, hnotin]

lemma periodData_createExpense (s : Store) (cmId : Nat) (a : Int)
    (cid' : Nat) (y m : Int) (hnotin : cmId ∉ periodCmIds s cid' y m) :
    periodData (createExpense s cmId a).2 cid' y m =
      periodData s cid' y m := by
  have hc : (periodCmIds s cid' y m).contains cmId = false :=
    contains_false_of_not_mem _ _ hnotin
  have hids : periodCmIds (createExpense s cmId a).2 cid' y m =
      periodCmIds s cid' y m := rfl
  have hr : (createExpense s cmId a).2.expenses =
      s.expenses ++ [⟨s.nextId, cmId, a⟩] := rfl
  have h2 : (createExpense s cmId a).2.housingSupports = s.housingSupports := rfl
  have h3 : (createExpense s cmId a).2.rentPayments = s.rentPayments := rfl
  have h4 : (createExpense s cmId a).2.lthPayments = s.lthPayments := rfl
  rw [periodData, periodData, hids, hr, h2, h3, h4, List.filter_append]
  simp [List.filter, hnotin]

lemma periodData_updateHousingSupport (s : Store) (rid : Nat) (a : Int)
    (cid' : Nat) (y m : Int)
    (hsafe : ∀ r ∈ s.housingSupports, r.id = rid →
      (periodCmIds s cid' y m).contains r.clientMonthId = false) :
    periodData (updateHousingSupport s rid a) cid' y m =
      periodData s cid' y m := by
  have hids : periodCmIds (updateHousingSupport s rid a) cid' y m =
      periodCmIds s cid' y m := rfl
  have hhs : (updateHousingSupport s rid a).housingSupports =
      s.housingSupports.map (fun r =>
        if r.id == rid then { r with amount := a } else r) := rfl
  rw [periodData, periodData, hids, hhs]
  simp only [Prod.mk.injEq]
  refine ⟨?_, rfl, rfl, rfl⟩
  rw [List.filter_map]
  have h1 : s.housingSupports.filter
      ((fun r => (periodCmIds s cid' y m).contains r.clientMonthId) ∘
        (fun r => if r.id == rid then { r with amount := a } else r)) =
      s.housingSupports.filter
        (fun r => (periodCmIds s cid' y m).contains r.clientMonthId) := by
    apply List.filter_congr
    intro r _
    by_cases hid : r.id = rid <;> simp [hid]
  rw [h1]
  have h2 : ∀ r ∈ s.housingSupports.filter
      (fun r => (periodCmIds s cid' y m).contains r.clientMonthId),
      (if r.id == rid then ({ r with amount := a } : HousingSupportRow) else r) = r := by
    intro r hr
    rw [List.mem_filter] at hr
    have hne : ¬ r.id = rid := by
      intro hid
      rw [hsafe r hr.1 hid] at hr
      exact Bool.false_ne_true hr.2
    simp [hne]
  calc (s.housingSupports.filter
        (fun r => (periodCmIds s cid' y m).contains r.clientMonthId)).map
          (fun r => if r.id == rid then { r with amount := a } else r)
      = (s.housingSupports.filter
          (fun r => (periodCmIds s cid' y m).contains r.clientMonthId)).map id := by
        exact List.map_congr_left (fun r hr => h2 r hr)
    _ = s.housingSupports.filter
          (fun r => (periodCmIds s cid' y m).contains r.clientMonthId) :=
        List.map_id _

lemma periodData_updateRentPayment (s : Store) (rid : Nat) (a : Option Int)
    (cid' : Nat) (y m : Int)
    (hsafe : ∀ r ∈ s.rentPayments, r.id = rid →
      (periodCmIds s cid' y m).contains r.clientMonthId = false) :
    periodData (updateRentPayment s rid a) cid' y m =
      periodData s cid' y m := by
  have hids : periodCmIds (updateRentPayment s rid a) cid' y m =
      periodCmIds s cid' y m := rfl
  have hrp : (updateRentPayment s rid a).rentPayments =
      s.rentPayments.map (fun r =>
        if r.id == rid then { r with paidAmount := a } else r) := rfl
  rw [periodData, periodData, hids, hrp]
  simp only [Prod.mk.injEq]
  refine ⟨rfl, ?_, rfl, rfl⟩
  rw [List.filter_map]
  have h1 : s.rentPayments.filter
      ((fun r => (periodCmIds s cid' y m).contains r.clientMonthId) ∘
        (fun r => if r.id == rid then { r with paidAmount := a } else r)) =
      s.rentPayments.filter
        (fun r => (periodCmIds s cid' y m).contains r.clientMonthId) := by
    apply List.filter_congr
    intro r _
    by_cases hid : r.id = rid <;> simp [hid]
  rw [h1]
  have h2 : ∀ r ∈ s.rentPayments.filter
      (fun r => (periodCmIds s cid' y m).contains r.clientMonthId),
      (if r.id == rid then ({ r with paidAmount := a } : RentPaymentRow) else r) = r := by
    intro r hr
    rw [List.mem_filter] at hr
    have hne : ¬ r.id = rid := by
      intro hid
      rw [hsafe r hr.1 hid] at hr
      exact Bool.false_ne_true hr.2
    simp [hne]
  calc (s.rentPayments.filter
        (fun r => (periodCmIds s cid' y m).contains r.clientMonthId)).map
          (fun r => if r.id == rid then { r with paidAmount := a } else r)
      = (s.rentPayments.filter
          (fun r => (periodCmIds s cid' y m).contains r.clientMonthId)).map id := by
        exact List.map_congr_left (fun r hr => h2 r hr)
    _ = s.rentPayments.filter
          (fun r => (periodCmIds s cid' y m).contains r.clientMonthId) :=
        List.map_id _

lemma wf_createClientMonth (s : Store) (cid : Nat) (y m : Int) (lk : Bool)
    (hwf : WellFormedStore s) :
    WellFormedStore (createClientMonth s cid y m lk).2 := by
  obtain ⟨h1, h2, h3, h4, h5, h6, h7, h8⟩ := hwf
  refine ⟨?_, h2, h3, ?_, fun r hr => Nat.lt_succ_of_lt (h5 r hr),
    fun r hr => Nat.lt_succ_of_lt (h6 r hr),
    fun r hr => Nat.lt_succ_of_lt (h7 r hr),
    fun r hr => Nat.lt_succ_of_lt (h8 r hr)⟩
  · rw [show (createClientMonth s cid y m lk).2.clientMonths =
        s.clientMonths ++ [⟨s.nextId, cid, y, m, lk⟩] from rfl, List.map_append]
    rw [List.nodup_append]
    refine ⟨h1, List.nodup_singleton _, ?_⟩
    intro x hx hx2
    rcases List.mem_map.mp hx with ⟨cm, hcm, rfl⟩
    have := h4 cm hcm
    simp at hx2
    omega
  · intro cm hcm
    rcases List.mem_append.mp hcm with h | h
    · exact Nat.lt_succ_of_lt (h4 cm h)
    · simp at h
      subst h
      exact Nat.lt_succ_self _

lemma wf_createHousingSupport (s : Store) (cmId : Nat) (a : Int)
    (hwf : WellFormedStore s) :
    WellFormedStore (createHousingSupport s cmId a).2 := by
  obtain ⟨h1, h2, h3, h4, h5, h6, h7, h8⟩ := hwf
  refine ⟨h1, ?_, h3, fun r hr => Nat.lt_succ_of_lt (h4 r hr), ?_,
    fun r hr => Nat.lt_succ_of_lt (h6 r hr),
    fun r hr => Nat.lt_succ_of_lt (h7 r hr),
    fun r hr => Nat.lt_succ_of_lt (h8 r hr)⟩
  · rw [show (createHousingSupport s cmId a).2.housingSupports =
        s.housingSupports ++ [⟨s.nextId, cmId, a⟩] from rfl, List.map_append]
    rw [List.nodup_append]
    refine ⟨h2, List.nodup_singleton _, ?_⟩
    intro x hx hx2
    rcases List.mem_map.mp hx with ⟨r, hr, rfl⟩
    have := h5 r hr
    simp at hx2
    omega
  · intro r hr
    rcases List.mem_append.mp hr with h | h
    · exact Nat.lt_succ_of_lt (h5 r h)
    · simp at h
      subst h
      exact Nat.lt_succ_self _

lemma wf_createRentPayment (s : Store) (cmId : Nat) (a : Option Int)
    (hwf : WellFormedStore s) :
    WellFormedStore (createRentPayment s cmId a).2 := by
  obtain ⟨h1, h2, h3, h4, h5, h6, h7, h8⟩ := hwf
  refine ⟨h1, h2, ?_, fun r hr => Nat.lt_succ_of_lt (h4 r hr),
    fun r hr => Nat.lt_succ_of_lt (h5 r hr), ?_,
    fun r hr => Nat.lt_succ_of_lt (h7 r hr),
    fun r hr => Nat.lt_succ_of_lt (h8 r hr)⟩
  · rw [show (createRentPayment s cmId a).2.rentPayments =
        s.rentPayments ++ [⟨s.nextId, cmId, a⟩] from rfl, List.map_append]
    rw [List.nodup_append]
    refine ⟨h3, List.nodup_singleton _, ?_⟩
    intro x hx hx2
    rcases List.mem_map.mp hx with ⟨r, hr, rfl⟩
    have := h6 r hr
    simp at hx2
    omega
  · intro r hr
    rcases List.mem_append.mp hr with h | h
    · exact Nat.lt_succ_of_lt (h6 r h)
    · simp at h
      subst h
      exact Nat.lt_succ_self _

lemma wf_createLthPayment (s : Store) (cmId : Nat) (a : Int)
    (hwf : WellFormedStore s) :
    WellFormedStore (createLthPayment s cmId a).2 := by
  obtain ⟨h1, h2, h3, h4, h5, h6, h7, h8⟩ := hwf
  refine ⟨h1, h2, h3, fun r hr => Nat.lt_succ_of_lt (h4 r hr),
    fun r hr => Nat.lt_succ_of_lt (h5 r hr),
    fun r hr => Nat.lt_succ_of_lt (h6 r hr), ?_,
    fun r hr => Nat.lt_succ_of_lt (h8 r hr)⟩
  intro r hr
  rcases List.mem_append.mp hr with h | h
  · exact Nat.lt_succ_of_lt (h7 r h)
  · simp at h
    subst h
    exact Nat.lt_succ_self _

lemma wf_createExpense (s : Store) (cmId : Nat) (a : Int)
    (hwf : WellFormedStore s) :
    WellFormedStore (createExpense s cmId a).2 := by
  obtain ⟨h1, h2, h3, h4, h5, h6, h7, h8⟩ := hwf
  refine ⟨h1, h2, h3, fun r hr => Nat.lt_succ_of_lt (h4 r hr),
    fun r hr => Nat.lt_succ_of_lt (h5 r hr),
    fun r hr => Nat.lt_succ_of_lt (h6 r hr),
    fun r hr => Nat.lt_succ_of_lt (h7 r hr), ?_⟩
  intro r hr
  rcases List.mem_append.mp hr with h | h
  · exact Nat.lt_succ_of_lt (h8 r h)
  · simp at h
    subst h
    exact Nat.lt_succ_self _

lemma wf_updateHousingSupport (s : Store) (rid : Nat) (a : Int)
    (hwf : WellFormedStore s) :
    WellFormedStore (updateHousingSupport s rid a) := by
  obtain ⟨h1, h2, h3, h4, h5, h6, h7, h8⟩ := hwf
  have hids : (updateHousingSupport s rid a).housingSupports.map (fun r => r.id) =
      s.housingSupports.map (fun r => r.id) := by
    rw [show (updateHousingSupport s rid a).housingSupports =
        s.housingSupports.map (fun r =>
          if r.id == rid then { r with amount := a } else r) from rfl, List.map_map]
    apply List.map_congr_left
    intro r _
    by_cases h : r.id = rid <;> simp [h]
  refine ⟨h1, ?_, h3, h4, ?_, h6, h7, h8⟩
  · rw [hids]
    exact h2
  · intro r hr
    rcases List.mem_map.mp hr with ⟨r0, hr0, rfl⟩
    have := h5 r0 hr0
    have hnext : (updateHousingSupport s rid a).nextId = s.nextId := rfl
    by_cases h : r0.id = rid <;> simp [h, hnext] <;> omega

lemma wf_updateRentPayment (s : Store) (rid : Nat) (a : Option Int)
    (hwf : WellFormedStore s) :
    WellFormedStore (updateRentPayment s rid a) := by
  obtain ⟨h1, h2, h3, h4, h5, h6, h7, h8⟩ := hwf
  have hids : (updateRentPayment s rid a).rentPayments.map (fun r => r.id) =
      s.rentPayments.map (fun r => r.id) := by
    rw [show (updateRentPayment s rid a).rentPayments =
        s.rentPayments.map (fun r =>
          if r.id == rid then { r with paidAmount := a } else r) from rfl, List.map_map]
    apply List.map_congr_left
    intro r _
    by_cases h : r.id = rid <;> simp [h]
  refine ⟨h1, h2, ?_, h4, h5, ?_, h7, h8⟩
  · rw [hids]
    exact h3
  · intro r hr
    rcases List.mem_map.mp hr with ⟨r0, hr0, rfl⟩
    have := h6 r0 hr0
    have hnext : (updateRentPayment s rid a).nextId = s.nextId := rfl
    by_cases h : r0.id = rid <;> simp [h, hnext] <;> omega

lemma not_mem_periodCmIds_of_other_client (s : Store) (cm : ClientMonthRec)
    (cid' : Nat) (y m : Int)
    (hnd : (s.clientMonths.map (fun x => x.id)).Nodup)
    (hmem : cm ∈ s.clientMonths) (hne : cm.clientId ≠ cid') :
    cm.id ∉ periodCmIds s cid' y m := by
  intro hmem'
  rcases List.mem_map.mp hmem' with ⟨x, hx, hxid⟩
  have hxmem : x ∈ s.clientMonths := List.mem_of_mem_filter hx
  have hxcid : x.clientId = cid' := by
    have := List.of_mem_filter hx
    simp at this
    exact this.1.1
  have hxe : x = cm := List.inj_on_of_nodup_map hnd hxmem hmem hxid
  exact hne (hxe ▸ hxcid)

lemma bulkWrite_clientMonths (s : Store) (ft : FinancialType) (amount : Int)
    (cmId : Nat) : (bulkWrite s ft amount cmId).clientMonths = s.clientMonths := by
  cases ft with
  | housingSupport =>
    rw [bulkWrite]
    cases getHousingSupport s cmId <;> rfl
  | rent =>
    rw [bulkWrite]
    cases getRentPayment s cmId <;> rfl
  | expense => rfl
  | lth => rfl

lemma lockedAt_bulkWrite (s : Store) (ft : FinancialType) (amount : Int)
    (cmId : Nat) (cid' : Nat) (y m : Int) :
    lockedAt (bulkWrite s ft amount cmId) cid' y m = lockedAt s cid' y m := by
  rw [lockedAt, lockedAt, getClientMonthByPeriod, getClientMonthByPeriod,
    bulkWrite_clientMonths]

lemma bulkWrite_spec (s : Store) (ft : FinancialType) (amount : Int)
    (cm1 : ClientMonthRec) (hwf : WellFormedStore s)
    (hmem : cm1 ∈ s.clientMonths) :
    WellFormedStore (bulkWrite s ft amount cm1.id) ∧
      (∀ cid', ∀ y m : Int, cm1.clientId ≠ cid' →
        periodData (bulkWrite s ft amount cm1.id) cid' y m =
          periodData s cid' y m) := by
  cases ft with
  | housingSupport =>
    cases hhs : getHousingSupport s cm1.id with
    | some existing =>
      have hexmem : existing ∈ s.housingSupports := List.mem_of_find?_eq_some hhs
      have hexcm : existing.clientMonthId = cm1.id := by
        have := List.find?_some hhs
        simpa using this
      refine ⟨?_, ?_⟩
      · rw [bulkWrite, hhs]
        exact wf_updateHousingSupport s existing.id amount hwf
      · intro cid' y m hne
        rw [bulkWrite, hhs]
        apply periodData_updateHousingSupport
        intro r hr hid
        have hre : r = existing :=
          List.inj_on_of_nodup_map hwf.2.1 hr hexmem hid
        subst hre
        rw [hexcm]
        exact contains_false_of_not_mem _ _
          (not_mem_periodCmIds_of_other_client s cm1 cid' y m hwf.1 hmem hne)
    | none =>
      refine ⟨?_, ?_⟩
      · rw [bulkWrite, hhs]
        exact wf_createHousingSupport s cm1.id amount hwf
      · intro cid' y m hne
        rw [bulkWrite, hhs]
        exact periodData_createHousingSupport s cm1.id amount cid' y m
          (not_mem_periodCmIds_of_other_client s cm1 cid' y m hwf.1 hmem hne)
  | rent =>
    cases hrp : getRentPayment s cm1.id with
    | some existing =>
      have hexmem : existing ∈ s.rentPayments := List.mem_of_find?_eq_some hrp
      have hexcm : existing.clientMonthId = cm1.id := by
        have := List.find?_some hrp
        simpa using this
      refine ⟨?_, ?_⟩
      · rw [bulkWrite, hrp]
        exact wf_updateRentPayment s existing.id (some amount) hwf
      · intro cid' y m hne
        rw [bulkWrite, hrp]
        apply periodData_updateRentPayment
        intro r hr hid
        have hre : r = existing :=
          List.inj_on_of_nodup_map hwf.2.2.1 hr hexmem hid
        subst hre
        rw [hexcm]
        exact contains_false_of_not_mem _ _
          (not_mem_periodCmIds_of_other_client s cm1 cid' y m hwf.1 hmem hne)
    | none =>
      refine ⟨?_, ?_⟩
      · rw [bulkWrite, hrp]
        exact wf_createRentPayment s cm1.id (some amount) hwf
      · intro cid' y m hne
        rw [bulkWrite, hrp]
        exact periodData_createRentPayment s cm1.id (some amount) cid' y m
          (not_mem_periodCmIds_of_other_client s cm1 cid' y m hwf.1 hmem hne)
  | expense =>
    refine ⟨wf_createExpense s cm1.id amount hwf, ?_⟩
    intro cid' y m hne
    exact periodData_createExpense s cm1.id amount cid' y m
      (not_mem_periodCmIds_of_other_client s cm1 cid' y m hwf.1 hmem hne)
  | lth =>
    refine ⟨wf_createLthPayment s cm1.id amount hwf, ?_⟩
    intro cid' y m hne
    exact periodData_createLthPayment s cm1.id amount cid' y m
      (not_mem_periodCmIds_of_other_client s cm1 cid' y m hwf.1 hmem hne)

lemma bulkApplyOne_spec (s : Store) (role : Role) (y m : Int)
    (ft : FinancialType) (amount : Int) (cid : Nat) (hwf : WellFormedStore s) :
    WellFormedStore (bulkApplyOne s role y m ft amount cid).1 ∧
      (bulkApplyOne s role y m ft amount cid).2 =
        !(lockedAt s cid y m && decide (role ≠ Role.superAdmin)) ∧
      (∀ cid', lockedAt (bulkApplyOne s role y m ft amount cid).1 cid' y m =
        lockedAt s cid' y m) ∧
      (∀ cid', cid' ≠ cid →
        periodData (bulkApplyOne s role y m ft amount cid).1 cid' y m =
          periodData s cid' y m) ∧
      (lockedAt s cid y m = true → role ≠ Role.superAdmin →
        (bulkApplyOne s role y m ft amount cid).1 = s) := by
  cases hfind : getClientMonthByPeriod s cid y m with
  | some cm0 =>
    obtain ⟨hmem, hcid, -, -⟩ := getClientMonthByPeriod_spec s cid y m cm0 hfind
    have hlocked : lockedAt s cid y m = cm0.isLocked := by rw [lockedAt, hfind]
    have hb : bulkApplyOne s role y m ft amount cid =
        (if cm0.isLocked ∧ role ≠ Role.superAdmin then (s, false)
          else (bulkWrite s ft amount cm0.id, true)) := by
      rw [bulkApplyOne, lookupOrCreateClientMonth, hfind]
    by_cases hskip : cm0.isLocked ∧ role ≠ Role.superAdmin
    · rw [hb, if_pos hskip]
      refine ⟨hwf, ?_, fun _ => rfl, fun _ _ => rfl, fun _ _ => rfl⟩
      rw [hlocked, hskip.1, decide_eq_true hskip.2]
      rfl
    · rw [hb, if_neg hskip]
      obtain ⟨hwf', hframe⟩ := bulkWrite_spec s ft amount cm0 hwf hmem
      refine ⟨hwf', ?_,
        fun cid' => lockedAt_bulkWrite s ft amount cm0.id cid' y m, ?_, ?_⟩
      · rw [hlocked]
        have hfalse : (cm0.isLocked && decide (role ≠ Role.superAdmin)) = false := by
          cases hval : cm0.isLocked with
          | false => rfl
          | true =>
            have hr : ¬ role ≠ Role.superAdmin := fun hr => hskip ⟨hval, hr⟩
            simp [hr]
        rw [hfalse]
        rfl
      · intro cid' hne
        exact hframe cid' y m (by rw [hcid]; exact fun h => hne h.symm)
      · intro hl hr
        rw [hlocked] at hl
        exact absurd ⟨hl, hr⟩ hskip
  | none =>
    have hb : bulkApplyOne s role y m ft amount cid =
        (bulkWrite (createClientMonth s cid y m false).2 ft amount
          (createClientMonth s cid y m false).1.id, true) := by
      rw [bulkApplyOne, lookupOrCreateClientMonth, hfind]
      have hcond : ¬ ((createClientMonth s cid y m false).1.isLocked ∧
          role ≠ Role.superAdmin) := by
        intro h
        have := h.1
        simp [createClientMonth] at this
      rw [if_neg hcond]
    have hlock0 : lockedAt s cid y m = false := by rw [lockedAt, hfind]
    have hwf1 : WellFormedStore (createClientMonth s cid y m false).2 :=
      wf_createClientMonth s cid y m false hwf
    have hmem1 : (createClientMonth s cid y m false).1 ∈
        (createClientMonth s cid y m false).2.clientMonths := by
      simp [createClientMonth]
    have hrowcid : (createClientMonth s cid y m false).1.clientId = cid := rfl
    obtain ⟨hwf', hframe⟩ :=
      bulkWrite_spec (createClientMonth s cid y m false).2 ft amount
        (createClientMonth s cid y m false).1 hwf1 hmem1
    rw [hb]
    refine ⟨hwf', ?_, ?_, ?_, ?_⟩
    · rw [hlock0]
      rfl
    · intro cid'
      rw [lockedAt_bulkWrite]
      exact lockedAt_createClientMonth s cid y m hfind cid'
    · intro cid' hne
      rw [hframe cid' y m (by rw [hrowcid]; exact fun h => hne h.symm)]
      exact periodData_createClientMonth_ne s cid y m false cid' hne
    · intro hl _
      rw [hlock0] at hl
      exact absurd hl Bool.false_ne_true

lemma bulkUpdate_fold_spec (role : Role) (y m : Int) (ft : FinancialType)
    (getAmount : Nat → Option Int) :
    ∀ (ids : List Nat) (s : Store) (n : Nat), WellFormedStore s →
      WellFormedStore (ids.foldl (bulkStep role y m ft getAmount) (s, n)).1 ∧
        (ids.foldl (bulkStep role y m ft getAmount) (s, n)).2 =
          n + ids.countP (fun cid => (getAmount cid).isSome &&
            !(lockedAt s cid y m && decide (role ≠ Role.superAdmin))) ∧
        (∀ cid', lockedAt (ids.foldl (bulkStep role y m ft getAmount) (s, n)).1
          cid' y m = lockedAt s cid' y m) ∧
        (∀ cid', lockedAt s cid' y m = true → role ≠ Role.superAdmin →
          periodData (ids.foldl (bulkStep role y m ft getAmount) (s, n)).1
            cid' y m = periodData s cid' y m) := by
  intro ids
  induction ids with
  | nil =>
    intro s n hwf
    refine ⟨hwf, ?_, fun _ => rfl, fun _ _ _ => rfl⟩
    simp
  | cons cid rest ih =>
    intro s n hwf
    rw [List.foldl_cons]
    cases hamt : getAmount cid with
    | none =>
      have hstep : bulkStep role y m ft getAmount (s, n) cid = (s, n) := by
        rw [bulkStep, hamt]
      rw [hstep]
      obtain ⟨w1, w2, w3, w4⟩ := ih s n hwf
      refine ⟨w1, ?_, w3, w4⟩
      rw [w2, List.countP_cons]
      simp [hamt]
    | some amt =>
      obtain ⟨a1, a2, a3, a4, a5⟩ := bulkApplyOne_spec s role y m ft amt cid hwf
      have hstep : bulkStep role y m ft getAmount (s, n) cid =
          ((bulkApplyOne s role y m ft amt cid).1,
            if (bulkApplyOne s role y m ft amt cid).2 then n + 1 else n) := by
        rw [bulkStep, hamt]
      rw [hstep]
      obtain ⟨w1, w2, w3, w4⟩ := ih (bulkApplyOne s role y m ft amt cid).1
        (if (bulkApplyOne s role y m ft amt cid).2 then n + 1 else n) a1
      refine ⟨w1, ?_, ?_, ?_⟩
      · rw [w2, a2, List.countP_cons]
        have hcount : rest.countP (fun cid' => (getAmount cid').isSome &&
            !(lockedAt (bulkApplyOne s role y m ft amt cid).1 cid' y m &&
              decide (role ≠ Role.superAdmin))) =
            rest.countP (fun cid' => (getAmount cid').isSome &&
              !(lockedAt s cid' y m && decide (role ≠ Role.superAdmin))) := by
          apply List.countP_congr
          intro cid' _
          rw [a3 cid']
        rw [hcount]
        simp only [hamt, Option.isSome_some, Bool.true_and]
        cases hbv : (!(lockedAt s cid y m && decide (role ≠ Role.superAdmin))) <;>
          simp [hbv] <;> omega
      · intro cid'
        rw [w3 cid', a3 cid']
      · intro cid' hl hr
        have h1 : periodData (bulkApplyOne s role y m ft amt cid).1 cid' y m =
            periodData s cid' y m := by
          by_cases heq : cid' = cid
          · subst heq
            rw [a5 hl hr]
          · exact a4 cid' heq
        rw [w4 cid' (by rw [a3 cid']; exact hl) hr, h1]

/-- C7: the bulk update processes each client independently.  For a
well-formed store, `updatedCount` equals exactly the number of requested
clients with a usable amount whose period is not locked against the actor
(each such client's financial row is written; locked clients are silently
skipped rather than aborting the batch), and every skipped locked client's
period data is left completely unchanged. -/
theorem bulk_update_partial_success (s : Store) (role : Role)
    (year month : Int) (ft : FinancialType) (getAmount : Nat → Option Int)
    (clientIds : List Nat) (hwf : WellFormedStore s) :
    (bulkUpdateRoute s role year month ft getAmount clientIds).2 =
        clientIds.countP (fun cid => (getAmount cid).isSome &&
          !(lockedAt s cid year month && decide (role ≠ Role.superAdmin))) ∧
      (∀ cid, lockedAt s cid year month = true → role ≠ Role.superAdmin →
        periodData (bulkUpdateRoute s role year month ft getAmount clientIds).1
          cid year month = periodData s cid year month) := by
  obtain ⟨-, h2, -, h4⟩ :=
    bulkUpdate_fold_spec role year month ft getAmount clientIds s 0 hwf
  exact ⟨by rw [bulkUpdateRoute, h2, Nat.zero_add], h4⟩

/-- The claim's concrete scenario: clients A (1), B (2), C (3) with 2025-04
client-months; C's month is locked, and C already has a housing-support row
of 100. -/
def c7Store : Store :=
  { clients := [⟨1, "A", none, none⟩, ⟨2, "B", none, none⟩, ⟨3, "C", none, none⟩]
    clientMonths := [⟨10, 1, 2025, 4, false⟩, ⟨11, 2, 2025, 4, false⟩,
      ⟨12, 3, 2025, 4, true⟩]
    housingSupports := [⟨20, 12, 100⟩]
    rentPayments := []
    lthPayments := []
    expenses := []
    clientDocuments := []
    nextId := 30 }

/-- C7 witness: applying housing_support = 200 to clients [1, 2, 3] for
2025-04 as admin yields `updatedCount = 2`, with locked client 3's period
data untouched. -/
theorem bulk_update_partial_success_witness :
    WellFormedStore c7Store ∧
      (bulkUpdateRoute c7Store Role.admin 2025 4 FinancialType.housingSupport
        (fun _ => some 200) [1, 2, 3]).2 = 2 ∧
      periodData (bulkUpdateRoute c7Store Role.admin 2025 4
          FinancialType.housingSupport (fun _ => some 200) [1, 2, 3]).1
        3 2025 4 = periodData c7Store 3 2025 4 :=
  ⟨by decide,
    ((bulk_update_partial_success c7Store Role.admin 2025 4
      FinancialType.housingSupport (fun _ => some 200) [1, 2, 3]
      (by decide)).1).trans (by decide),
    (bulk_update_partial_success c7Store Role.admin 2025 4
      FinancialType.housingSupport (fun _ => some 200) [1, 2, 3]
      (by decide)).2 3 (by decide) (by decide)⟩
